import Mathlib

/-!
Verification development for the Stripe-checkout / Shopify-draft-order bridge.

The definitions below are a shallow embedding of the repository's JavaScript
source (`src/api/stripe-webhook.js`, `src/api/lib/loop.js`).  The webhook file
contains several iterations of the handler separated by document markers; line
numbers cited in comments refer to the concatenated file.  The iteration at
lines 258-699 (GraphQL order writer, Loop sync, trial-title line items) is the
one the analysed claims cite, and is modelled as `webhookHandler`; the REST
order writer of the first iteration (lines 24-57) is modelled as
`restCreateAndComplete`.

JavaScript numbers are modelled as exact values of IEEE-754 binary64
arithmetic: a double is a dyadic rational `m * 2^e` (structure `Dbl`), and the
rounding performed by JS arithmetic (`x / 100`) and by `Number.toFixed(2)` is
modelled exactly, over integer pairs so that everything kernel-evaluates.
-/

set_option autoImplicit false

namespace StripeShopify

/-! ### JavaScript value helpers

`process.env.X` and optional object fields are `Option String`; `none` is
`undefined`/`null`, `some ""` is a present empty string (falsy in JS). -/

/-- Truthiness of a JS string-or-undefined value: `undefined`, `null` and `""`
are falsy, every other string is truthy. -/
def jsTruthy : Option String → Bool
  | none => false
  | some s => s ≠ ""

/-- The JS expression `a || b` on string-or-undefined values: yields `a` when
truthy, otherwise `b`. -/
def jsOr (a b : Option String) : Option String :=
  if jsTruthy a then a else b

/-- The JS expression `a || b || null` collapsed to an optional string. -/
def jsOr3 (a b : Option String) : Option String :=
  if jsTruthy a then a else if jsTruthy b then b else none

/-- The JS expression `x ?? ""` (nullish coalescing to the empty string). -/
def coalesceEmpty : Option String → String
  | none => ""
  | some s => s

/-- JS `s.trim()`: strip leading and trailing whitespace (structurally
recursive, unlike `String.trim`, so that the kernel can evaluate it). -/
def jsTrim (s : String) : String :=
  String.mk
    (((s.data.dropWhile Char.isWhitespace).reverse.dropWhile
      Char.isWhitespace).reverse)

/-! ### Binary64 model

All numbers that flow through the code are produced from JSON integers, a
single division by 100, and `toFixed(2)`.  We model binary64 values as dyadic
rationals and the two rounding steps exactly.  All functions below compute by
structural recursion on `Int`/`Nat`, so `decide` can evaluate them. -/

/-- Fuel-based binary logarithm on `Nat` (structurally recursive so that the
kernel can evaluate it, unlike the well-founded `Nat.log2`). -/
def natLog2Aux : Nat → Nat → Nat
  | 0, _ => 0
  | fuel + 1, n => if 2 ≤ n then natLog2Aux fuel (n / 2) + 1 else 0

/-- Binary logarithm: for `1 ≤ n`, `2 ^ natLog2 n ≤ n < 2 ^ (natLog2 n + 1)`. -/
def natLog2 (n : Nat) : Nat := natLog2Aux n n

/-- Round the fraction `num / den` (with `0 < den`) to the nearest integer,
ties to even — the IEEE-754 default rounding used by JS arithmetic. -/
def roundRatHalfEven (num den : Int) : Int :=
  let f := num.fdiv den
  let r2 := 2 * (num - f * den)
  if r2 < den then f
  else if den < r2 then f + 1
  else if f % 2 = 0 then f else f + 1

/-- Floor of `num / den` with `0 < num`, `0 < den`, as a base-2 exponent:
`2 ^ floorLog2Frac num den ≤ num / den < 2 ^ (floorLog2Frac num den + 1)`. -/
def floorLog2Frac (num den : Int) : Int :=
  let a : Int := natLog2 num.toNat
  let b : Int := natLog2 den.toNat
  let e := a - b
  -- decide whether num / den < 2 ^ e without leaving the integers
  let lt2e : Bool :=
    if 0 ≤ e then num < den * 2 ^ e.toNat else num * 2 ^ (-e).toNat < den
  if lt2e then e - 1 else e

/-- A binary64 value `m * 2 ^ e` (we only track the dyadic value; inputs in
this code base stay far inside the normal range, so neither subnormals nor
overflow can occur on the modelled paths). -/
structure Dbl where
  m : Int
  e : Int
  deriving DecidableEq, Repr

/-- The rational value of a `Dbl`. -/
def Dbl.val (d : Dbl) : ℚ := (d.m : ℚ) * (2 : ℚ) ^ d.e

/-- Round the positive fraction `num / den` to the nearest binary64 value
(53-bit significand, round-to-nearest ties-to-even). -/
def roundDblPos (num den : Int) : Dbl :=
  let E := floorLog2Frac num den
  let s := 52 - E
  let m :=
    if 0 ≤ s then roundRatHalfEven (num * 2 ^ s.toNat) den
    else roundRatHalfEven num (den * 2 ^ (-s).toNat)
  ⟨m, E - 52⟩

/-- Round the fraction `num / den` (with `0 < den`) to the nearest binary64
value; this is the result of the JS division `num / den` on exactly
representable operands. -/
def roundDbl (num den : Int) : Dbl :=
  if num = 0 then ⟨0, 0⟩
  else if num < 0 then
    let d := roundDblPos (-num) den
    ⟨-d.m, d.e⟩
  else roundDblPos num den

/-- The numerator of `d.val * 100 + 1/2` over the denominator `2 * den'` used
by `toFixedCents`: given a double `d`, the ECMA-262 `toFixed(2)` algorithm
picks the integer `c` minimising `|c / 100 - d|`, ties away from zero toward
the larger `c`.  For `0 ≤ d` this is `⌊100 * d + 1/2⌋`. -/
def toFixedCents (d : Dbl) : Int :=
  -- represent 100 * |d.m| * 2 ^ d.e as yn / yd with yd > 0
  let mAbs := if d.m < 0 then -d.m else d.m
  let yn : Int := if 0 ≤ d.e then 100 * mAbs * 2 ^ d.e.toNat else 100 * mAbs
  let yd : Int := if 0 ≤ d.e then 1 else 2 ^ (-d.e).toNat
  let c := (2 * yn + yd).fdiv (2 * yd)
  if d.m < 0 then -c else c

/-- The integer value (in cents) printed by
`(amount / 100).toFixed(2)` for a smallest-currency-unit integer `amount`:
`amount` is first read from JSON into a binary64, divided by `100` in binary64
arithmetic, and the result is formatted by `toFixed(2)`
(`src/api/stripe-webhook.js` lines 549-550 and 658). -/
def jsAmountCents (amount : Int) : Int :=
  let a := roundDbl amount 1
  let d :=
    if a.m = 0 then (⟨0, 0⟩ : Dbl)
    else if 0 ≤ a.e then roundDbl (a.m * 2 ^ a.e.toNat) 100
    else roundDbl a.m (100 * 2 ^ (-a.e).toNat)
  toFixedCents d

/-- Two-digit zero-padded rendering of `r < 100`. -/
def pad2 (r : Nat) : String :=
  if r < 10 then "0" ++ toString r else toString r

/-- Decimal string `q.rr` for a non-negative amount of `c` cents (the shape
`toFixed(2)` produces for values below `10^21`). -/
def centsToStringNat (c : Nat) : String :=
  toString (c / 100) ++ "." ++ pad2 (c % 100)

/-- Decimal string for a signed amount of cents. -/
def centsToString (c : Int) : String :=
  if c < 0 then "-" ++ centsToStringNat (-c).toNat else centsToStringNat c.toNat

/-- The string computed by the source expression `(amount / 100).toFixed(2)`. -/
def jsAmountFormatted (amount : Int) : String :=
  centsToString (jsAmountCents amount)

/-- Modelled from the spec: the exact fixed two-decimal-place decimal string
representation of `n / 100` for a non-negative smallest-currency-unit integer
`n` — the value §3 of the spec says `amountFormatted` always equals. -/
def exactTwoDecString (n : Nat) : String :=
  toString (n / 100) ++ "." ++ pad2 (n % 100)

/-! ### Line items (`buildLineItems`, webhook lines 519-533)

The handler iteration under verification always produces a custom (free-text)
line item; the `LINE_TITLES` table selects among four fixed titles. -/

def titleYearlyTrial : String := "Platinum Membership Yearly - Free Trial"

def titleMonthlyTrial : String := "Platinum Membership Monthly - Free Trial"

def titleYearlyPaid : String := "Platinum Membership Yearly"

def titleMonthlyPaid : String := "Platinum Membership Monthly (after trial)"

/-- A Shopify draft-order line item.  `variant_id` is a catalog-variant
reference; `title`/`price` describe a free-text line.  The handler iteration
under verification never sets `variant_id` (its `buildLineItems` always
returns a titled custom line). -/
structure LineItem where
  variant_id : Option Int := none
  title : Option String := none
  price : String
  quantity : Nat := 1
  taxable : Option Bool := none
  deriving DecidableEq, Repr

/-- `buildLineItems(plan, amountFormatted, _metadataVariantId)` of the
verified iteration (lines 526-533): one custom line item whose title encodes
plan and trial-ness, priced at `amountFormatted`.  The third source parameter
is unused there, as in the source. -/
def buildLineItems (plan amountFormatted _metadataVariantId : String) :
    List LineItem :=
  let isTrial := amountFormatted = "0.00"
  let title :=
    if plan = "yearly" then
      if isTrial then titleYearlyTrial else titleYearlyPaid
    else
      if isTrial then titleMonthlyTrial else titleMonthlyPaid
  [{ title := some title, price := amountFormatted, quantity := 1 }]

/-! ### Plan resolution (webhook lines 548 and 648-653) -/

/-- `session.metadata?.plan || 'yearly'` (line 548). -/
def sessionPlan (metaPlan : Option String) : String :=
  match metaPlan with
  | some p => if p = "" then "yearly" else p
  | none => "yearly"

/-- Plan resolution on the invoice path (lines 648-653):
`subscription.metadata?.plan`, else a price-id match against the configured
yearly/monthly Stripe price ids, else `'yearly'`. -/
def invoicePlan (subMetaPlan priceId priceYearly priceMonthly : Option String) :
    String :=
  let plan1 : Option String :=
    if !(jsTruthy subMetaPlan) && jsTruthy priceId then
      match priceId with
      | some pid =>
          some (if priceYearly = some pid then "yearly"
                else if priceMonthly = some pid then "monthly" else "yearly")
      | none => subMetaPlan
    else subMetaPlan
  match plan1 with
  | some p => if p = "" then "yearly" else p
  | none => "yearly"

/-! ### Draft-order payloads and the outbound-call trace -/

/-- One `note_attributes` entry. -/
structure NoteAttr where
  name : String
  value : String
  deriving DecidableEq, Repr

/-- The draft-order payload handed to `createShopifyDraftOrderAndComplete`. -/
structure DraftOrderPayload where
  line_items : List LineItem
  email : Option String := none
  note : String := ""
  note_attributes : List NoteAttr := []
  tags : Option String := none
  source_name : Option String := none
  deriving DecidableEq, Repr

/-- An outbound HTTP call to the commerce backend (Shopify), in order. -/
inductive ShopifyCall
  | draftCreate (payload : DraftOrderPayload) (currencyCode : String)
  | draftComplete (draftOrderGid : String)
  | draftCreateRest (payload : DraftOrderPayload)
  | draftCompleteRest (draftOrderId : Int)
  | orderLookup (orderId : String)
  | customerSearch (email : String)
  deriving DecidableEq, Repr

/-- An HTTP response as the code observes it: the `ok` flag, the parsed JSON
body (when consulted), and the error text read on failure. -/
structure HttpResp (α : Type) where
  ok : Bool
  body : α
  errorText : String := ""
  deriving DecidableEq, Repr

/-- Result of both order writers (`{ ok, error?, customerId?, orderId? }`). -/
structure OrderResult where
  ok : Bool
  error : Option String := none
  customerId : Option String := none
  orderId : Option String := none
  deriving DecidableEq, Repr

/-! ### GraphQL order writer (webhook lines 285-391) -/

/-- Parsed `createJson.data?.draftOrderCreate`. -/
structure DraftOrderCreateData where
  draftOrderId : Option String
  userErrors : List String
  deriving DecidableEq, Repr

/-- Parsed `order.customer` of the completed draft order. -/
structure OrderCustomerData where
  legacyResourceId : Option String
  id : String
  deriving DecidableEq, Repr

/-- Parsed `completeData.draftOrder.order`. -/
structure CompletedOrderData where
  legacyResourceId : Option String
  id : String
  customer : Option OrderCustomerData := none
  deriving DecidableEq, Repr

/-- Parsed `completeJson.data?.draftOrderComplete`. -/
structure DraftOrderCompleteData where
  userErrors : List String
  order : Option CompletedOrderData := none
  deriving DecidableEq, Repr

/-- The two GraphQL responses one run of the order writer can consume. -/
structure GraphQLResponses where
  createResp : HttpResp (Option DraftOrderCreateData) :=
    { ok := false, body := none }
  completeResp : HttpResp (Option DraftOrderCompleteData) :=
    { ok := false, body := none }
  deriving DecidableEq, Repr

/-- The GraphQL `createShopifyDraftOrderAndComplete` (lines 285-391): create a
draft order, fail on HTTP error / `userErrors` / missing id, then complete it,
failing on HTTP error / `userErrors` of the complete phase as well; on success
extract order and customer identifiers. -/
def createShopifyDraftOrderAndComplete (net : GraphQLResponses)
    (payload : DraftOrderPayload) (currencyCode : String) :
    OrderResult × List ShopifyCall :=
  let createCall := [ShopifyCall.draftCreate payload currencyCode]
  if !net.createResp.ok then
    ({ ok := false, error := some net.createResp.errorText }, createCall)
  else
    let createData := net.createResp.body
    let userErrors := match createData with
      | some d => d.userErrors
      | none => []
    if userErrors.length > 0 then
      ({ ok := false, error := some (String.intercalate "; " userErrors) },
        createCall)
    else
      match createData.bind (fun d => d.draftOrderId) with
      | none => ({ ok := false, error := some "No draft order id returned" },
          createCall)
      | some draftOrderGid =>
        let calls := createCall ++ [ShopifyCall.draftComplete draftOrderGid]
        if !net.completeResp.ok then
          ({ ok := false, error := some net.completeResp.errorText }, calls)
        else
          let completeData := net.completeResp.body
          let completeErrors := match completeData with
            | some d => d.userErrors
            | none => []
          if completeErrors.length > 0 then
            ({ ok := false,
               error := some (String.intercalate "; " completeErrors) }, calls)
          else
            let order := completeData.bind (fun d => d.order)
            let orderId := match order with
              | none => none
              | some o => match o.legacyResourceId with
                | some l => some l
                | none => some o.id
            let customerId := match order.bind (fun o => o.customer) with
              | none => none
              | some c => match c.legacyResourceId with
                | some l => some l
                | none => some c.id
            ({ ok := true, customerId := customerId, orderId := orderId },
              calls)

/-! ### REST order writer (webhook lines 24-57, first iteration) -/

/-- Parsed `createData.draft_order` of the REST create response. -/
structure RestDraftOrderData where
  draftOrderId : Option Int
  deriving DecidableEq, Repr

/-- Responses for one run of the REST order writer. -/
structure RestResponses where
  createResp : HttpResp (Option RestDraftOrderData) :=
    { ok := false, body := none }
  completeOk : Bool := true
  deriving DecidableEq, Repr

/-- The REST `createShopifyDraftOrderAndComplete` (lines 24-57): failure of
the create POST yields `{ok:false}`; when a draft-order id comes back the
complete PUT is issued, and its failure is only logged (lines 51-54) — the
function returns `{ok:true}` regardless of the complete phase's outcome. -/
def restCreateAndComplete (net : RestResponses) (payload : DraftOrderPayload) :
    OrderResult × List ShopifyCall :=
  if !net.createResp.ok then
    ({ ok := false, error := some net.createResp.errorText },
      [ShopifyCall.draftCreateRest payload])
  else
    match net.createResp.body.bind (fun d => d.draftOrderId) with
    | some draftOrderId =>
        ({ ok := true },
          [ShopifyCall.draftCreateRest payload,
           ShopifyCall.draftCompleteRest draftOrderId])
    | none => ({ ok := true }, [ShopifyCall.draftCreateRest payload])

/-! ### JS numeric string conversions

`parseFloat` and `Number(...)` as used by `src/api/lib/loop.js`.  Both parse a
decimal literal with optional sign, fraction and exponent; `parseFloat` takes
the longest valid prefix after leading whitespace, `Number` must consume the
whole (trimmed) string and maps the empty string to `0`.  (The source only
feeds decimal identifiers and prices to them; the `Infinity`/hex forms are
unreachable and not modelled.)  The result is the exact rational value; the
callers below apply binary64 rounding where the source's arithmetic does. -/

/-- Consume leading decimal digits: value, digit count, rest. -/
def takeDigitsAux : List Char → Nat → Nat → Nat × Nat × List Char
  | c :: cs, acc, cnt =>
      if c.isDigit then takeDigitsAux cs (acc * 10 + (c.toNat - 48)) (cnt + 1)
      else (acc, cnt, c :: cs)
  | [], acc, cnt => (acc, cnt, [])

/-- Consume leading decimal digits. -/
def takeDigits (cs : List Char) : Nat × Nat × List Char := takeDigitsAux cs 0 0

/-- Parse a signed decimal literal (`-12.34e-5`) from the head of `cs`.
Returns the exact value as `num / den` (`0 < den`) plus the unconsumed rest,
or `none` when no digits are found. -/
def parseDecLiteral (cs : List Char) : Option (Int × Int × List Char) :=
  let (sign, cs0) : Int × List Char :=
    match cs with
    | '-' :: rest => (-1, rest)
    | '+' :: rest => (1, rest)
    | _ => (1, cs)
  let (ipart, icnt, cs1) := takeDigits cs0
  let (fpart, fcnt, cs2) :=
    match cs1 with
    | '.' :: rest => takeDigits rest
    | _ => (0, 0, cs1)
  if icnt + fcnt = 0 then none
  else
    let mant : Int := sign * (ipart * 10 ^ fcnt + fpart)
    let den0 : Int := 10 ^ fcnt
    -- exponent part is only consumed when at least one exponent digit follows
    let expParse : Option (Int × List Char) :=
      match cs2 with
      | e :: rest =>
          if e = 'e' ∨ e = 'E' then
            let (esign, rest0) : Int × List Char :=
              match rest with
              | '-' :: r => (-1, r)
              | '+' :: r => (1, r)
              | _ => (1, rest)
            let (ev, ecnt, rest1) := takeDigits rest0
            if ecnt = 0 then none else some (esign * ev, rest1)
          else none
      | [] => none
    match expParse with
    | some (ex, rest1) =>
        if 0 ≤ ex then some (mant * 10 ^ ex.toNat, den0, rest1)
        else some (mant, den0 * 10 ^ (-ex).toNat, rest1)
    | none => some (mant, den0, cs2)

/-- JS `parseFloat(s)`: longest valid numeric prefix after leading
whitespace; `none` models `NaN`. -/
def jsParseFloat (s : String) : Option (Int × Int) :=
  match parseDecLiteral (s.data.dropWhile (fun c => c.isWhitespace)) with
  | some (n, d, _) => some (n, d)
  | none => none

/-- JS `Number(s)`: the whole trimmed string must be a numeric literal; the
empty trimmed string is `0`; `none` models `NaN`. -/
def jsNumber (s : String) : Option (Int × Int) :=
  let cs := (jsTrim s).data
  if cs = [] then some (0, 1)
  else
    match parseDecLiteral cs with
    | some (n, d, []) => some (n, d)
    | _ => none

/-- Multiply a binary64 value by 100 with binary64 rounding of the product. -/
def dblTimes100 (d : Dbl) : Dbl :=
  if d.m = 0 then ⟨0, 0⟩
  else if 0 ≤ d.e then roundDbl (d.m * 100 * 2 ^ d.e.toNat) 1
  else roundDbl (d.m * 100) (2 ^ (-d.e).toNat)

/-- JS `Math.round` on a binary64 value: `⌊x + 1/2⌋` (half goes toward
positive infinity). -/
def dblMathRound (d : Dbl) : Int :=
  let yn : Int := if 0 ≤ d.e then d.m * 2 ^ d.e.toNat else d.m
  let yd : Int := if 0 ≤ d.e then 1 else 2 ^ (-d.e).toNat
  (2 * yn + yd).fdiv (2 * yd)

namespace Loop

/-- The environment variables `src/api/lib/loop.js` reads. -/
structure LoopEnv where
  syncEnabled : Option String := none
  apiToken : Option String := none
  sellingPlanId : Option String := none
  variantId : Option String := none
  productVariantId : Option String := none
  currencyCode : Option String := none
  deliveryPrice : Option String := none
  deriving DecidableEq, Repr

/-- The flag test `v === 'true' || v === '1' || v === true` (lines 8-11);
an environment variable is never the boolean `true`, so the third disjunct
cannot fire and is not modelled. -/
def isEnabled (env : LoopEnv) : Bool :=
  env.syncEnabled = some "true" || env.syncEnabled = some "1"

/-- One line of the Loop create-subscription request body.  Identifier fields
hold the exact value of `Number(...)`; Loop/Shopify identifiers are far below
`2^53`, where that conversion is exact in binary64. -/
structure LoopCreateLine where
  variantShopifyId : Int × Int
  sellingPlanShopifyId : Int × Int
  quantity : Nat
  price : String
  requiresShippingLine : Bool
  deriving DecidableEq, Repr

/-- The Loop create-subscription request body (lines 92-112; the constant
ten-year billing/delivery policy objects are fixed literals in the source and
carry no information, so they are not repeated here). -/
structure LoopCreateBody where
  customerShopifyId : Int × Int
  originOrderShopifyId : Int × Int
  nextBillingDateEpoch : Int
  currencyCode : String
  deliveryPrice : Int
  lines : List LoopCreateLine
  deriving DecidableEq, Repr

/-- An outbound HTTP call to the Loop API. -/
inductive LoopCall
  | createSub (body : LoopCreateBody)
  | customerLookup (email : String)
  | cancelSub (subId : String)
  deriving DecidableEq, Repr

/-- Result of the Loop operations (`{ ok, error? }`). -/
structure LoopResult where
  ok : Bool
  error : Option String := none
  deriving DecidableEq, Repr

/-- `createSubscription(email, plan, shopifyCustomerId, originOrderShopifyId)`
(loop.js lines 28-140).  `nowMs` is `Date.now()`; `createResp` is the
response of the one POST the function can make.  `10 * 365.25 * 24 * 60 * 60`
is the exact binary64 integer `315576000`. -/
def createSubscription (env : LoopEnv) (nowMs : Int) (email : String)
    (_plan : Option String) (shopifyCustomerId : String)
    (originOrderShopifyId : Option String) (createResp : HttpResp Unit) :
    LoopResult × List LoopCall :=
  if !isEnabled env then ({ ok := true }, [])
  else if email = "" || jsTrim email = "" then
    ({ ok := false, error := some "No email" }, [])
  else if shopifyCustomerId = "" then
    ({ ok := false, error := some "No Shopify customer ID" }, [])
  else if !jsTruthy originOrderShopifyId then
    ({ ok := false, error := some "No origin order ID" }, [])
  else if !jsTruthy env.apiToken then
    ({ ok := false, error := some "No token" }, [])
  else if !jsTruthy env.sellingPlanId then
    ({ ok := false, error := some "No selling plan ID" }, [])
  else
    let variantId := jsOr env.variantId env.productVariantId
    if !jsTruthy variantId then
      ({ ok := false, error := some "No variant ID" }, [])
    else
      let currencyCode := match jsOr env.currencyCode (some "AUD") with
        | some c => c
        | none => "AUD"
      let deliveryPriceAmount := match jsOr env.deliveryPrice (some "0") with
        | some a => a
        | none => "0"
      match jsParseFloat deliveryPriceAmount with
      | none => ({ ok := false, error := some "Invalid LOOP_DELIVERY_PRICE" }, [])
      | some (pn, pd) =>
        let deliveryPriceCents := dblMathRound (dblTimes100 (roundDbl pn pd))
        let nextBillingDateEpoch := nowMs.fdiv 1000 + 315576000
        let customerIdNum := jsNumber shopifyCustomerId
        let variantIdNum := jsNumber (match variantId with
          | some v => v
          | none => "")
        let originOrderIdNum := jsNumber (match originOrderShopifyId with
          | some o => o
          | none => "")
        let sellingPlanIdNum := jsNumber (match env.sellingPlanId with
          | some sp => sp
          | none => "")
        match customerIdNum, variantIdNum, originOrderIdNum, sellingPlanIdNum with
        | some cid, some vid, some oid, some spid =>
            let body : LoopCreateBody :=
              { customerShopifyId := cid
                originOrderShopifyId := oid
                nextBillingDateEpoch := nextBillingDateEpoch
                currencyCode := currencyCode
                deliveryPrice := deliveryPriceCents
                lines := [{ variantShopifyId := vid
                            sellingPlanShopifyId := spid
                            quantity := 1
                            price := "0.00"
                            requiresShippingLine := false }] }
            if createResp.ok then ({ ok := true }, [LoopCall.createSub body])
            else ({ ok := false, error := some createResp.errorText },
              [LoopCall.createSub body])
        | _, _, _, _ => ({ ok := false, error := some "Invalid ID" }, [])

/-- An entry of the subscription list in the customer-lookup response: an
object carrying an optional `id`, a bare string id, or a JSON `null`. -/
inductive SubEntry
  | obj (id : Option String)
  | str (s : String)
  | nullEntry
  deriving DecidableEq, Repr

/-- A value that may be a JSON array or a single value (the code wraps a
non-array into a one-element list). -/
inductive RawSubs
  | list (entries : List SubEntry)
  | single (e : SubEntry)
  deriving DecidableEq, Repr

/-- Parsed customer-lookup body; the three optional fields mirror the three
shapes consulted by `customerData.subscriptions ?? customerData.subscription_ids
?? customerData.data?.subscriptions ?? []`. -/
structure CustomerLookupData where
  subscriptions : Option RawSubs := none
  subscription_ids : Option RawSubs := none
  dataSubscriptions : Option RawSubs := none
  deriving DecidableEq, Repr

/-- The id extracted from one list entry:
`typeof s === 'object' && s != null ? s.id : s` (a `null` entry yields `null`,
later removed by `filter(Boolean)`). -/
def subEntryId : SubEntry → Option String
  | .obj i => i
  | .str s => some s
  | .nullEntry => none

/-- `raw ?? []` then `Array.isArray(raw) ? raw : [raw]`. -/
def rawToList : Option RawSubs → List SubEntry
  | none => []
  | some (.list l) => l
  | some (.single e) => [e]

/-- The subscription ids the cancel loop iterates:
map each entry to its id, then `filter(Boolean)`. -/
def subscriptionIds (d : CustomerLookupData) : List String :=
  let raw : Option RawSubs :=
    match d.subscriptions with
    | some r => some r
    | none =>
      match d.subscription_ids with
      | some r => some r
      | none => d.dataSubscriptions
  ((rawToList raw).filterMap subEntryId).filter (fun s => s ≠ "")

/-- Network responses one run of `cancelSubscription` can consume:
the customer lookup, and the outcome of the cancel POST per subscription id. -/
structure CancelNetwork where
  customerResp : HttpResp CustomerLookupData :=
    { ok := false, body := {} }
  cancelOk : String → Bool := fun _ => true

/-- `cancelSubscription(email)` (loop.js lines 148-193): look the customer up
by (trimmed) email, extract subscription ids from the tolerant shapes, and
POST a cancel per id; a failing cancel POST is only logged (lines 184-186),
and an empty id list short-circuits to success (lines 175-177). -/
def cancelSubscription (env : LoopEnv) (email : String) (net : CancelNetwork) :
    LoopResult × List LoopCall :=
  if !isEnabled env then ({ ok := true }, [])
  else if email = "" || jsTrim email = "" then
    ({ ok := false, error := some "No email" }, [])
  else if !jsTruthy env.apiToken then
    ({ ok := false, error := some "No token" }, [])
  else
    let lookup := [LoopCall.customerLookup (jsTrim email)]
    if !net.customerResp.ok then
      ({ ok := false, error := some "Customer lookup failed" }, lookup)
    else
      let ids := subscriptionIds net.customerResp.body
      if ids = [] then ({ ok := true }, lookup)
      else
        ({ ok := true }, lookup ++ ids.map (fun i => LoopCall.cancelSub i))

end Loop

/-! ### The webhook handler (lines 435-696 of the verified iteration)

The handler is modelled as a pure function of a `HandlerWorld`: the request
method, the environment, and the responses every external call it could make
would return.  Its output is the HTTP response plus the ordered trace of
outbound commerce-backend (Shopify) calls and whether the Loop side effects
were invoked. -/

/-- The checkout-session metadata fields the handler reads. -/
structure SessionMetadata where
  plan : Option String := none
  product_id : Option String := none
  variant_id : Option String := none
  utm_source : Option String := none
  utm_medium : Option String := none
  utm_campaign : Option String := none
  utm_term : Option String := none
  utm_content : Option String := none
  utm_id : Option String := none
  deriving DecidableEq, Repr

/-- The retrieved checkout session (fields the handler reads);
`customerDetailsEmail` is `session.customer_details?.email`. -/
structure CheckoutSession where
  customer_email : Option String := none
  customerDetailsEmail : Option String := none
  metadata : Option SessionMetadata := none
  amount_total : Option Int := none
  currency : Option String := none
  deriving DecidableEq, Repr

/-- The subscription metadata fields the invoice path reads. -/
structure SubscriptionMetadata where
  plan : Option String := none
  product_id : Option String := none
  variant_id : Option String := none
  deriving DecidableEq, Repr

/-- The subscription object (fields the handler reads); `firstPriceId` is
`subscription.items?.data?.[0]?.price?.id`. -/
structure StripeSubscription where
  id : String := ""
  metadata : Option SubscriptionMetadata := none
  firstPriceId : Option String := none
  deriving DecidableEq, Repr

/-- `invoice.subscription`: either a bare id string or the expanded object. -/
inductive SubscriptionRef
  | byId (id : String)
  | expanded (sub : StripeSubscription)
  deriving DecidableEq, Repr

/-- The expanded `invoice.customer` object (field the handler reads). -/
structure InvoiceCustomer where
  email : Option String := none
  deriving DecidableEq, Repr

/-- The retrieved invoice (fields the handler reads); `customer` is either a
bare id string or the expanded customer object. -/
structure StripeInvoice where
  subscription : Option SubscriptionRef := none
  amount_paid : Option Int := none
  billing_reason : Option String := none
  customer_email : Option String := none
  customer : Option (String ⊕ InvoiceCustomer) := none
  currency : Option String := none
  deriving DecidableEq, Repr

/-- A verified Stripe event as the handler reads it: its `type`, the id of
`data.object`, and — for subscription lifecycle events — the status and
customer reference of `data.object`. -/
structure StripeEvent where
  type : String
  objectId : String := ""
  objSubStatus : Option String := none
  objSubCustomer : Option String := none
  deriving DecidableEq, Repr

/-- The environment variables the webhook route reads. -/
structure WebhookEnv where
  stripeSecretKey : Option String := none
  webhookSecret : Option String := none
  shopDomain : Option String := none
  shopToken : Option String := none
  sourceName : Option String := none
  orderTags : Option String := none
  variantYearly : Option String := none
  variantMonthly : Option String := none
  priceYearly : Option String := none
  priceMonthly : Option String := none
  loopSyncEnabled : Option String := none
  deriving DecidableEq, Repr

/-- Results of the Stripe-side effects one request can perform.  A `none`
where an object is expected models the corresponding `await` throwing (the
source catches each of these individually). -/
structure StripeNetwork where
  bodyReadOk : Bool := true
  constructedEvent : Option StripeEvent := none
  sessionRetrieve : Option CheckoutSession := none
  invoiceRetrieve : Option StripeInvoice := none
  subscriptionRetrieve : StripeSubscription := {}
  customerRetrieve : Option (Bool × Option String) := none
  deriving DecidableEq, Repr

/-- Everything one request depends on. `custIdFromOrder` / `custIdByEmail`
are the values the two customer-id lookup helpers would produce when their
fetch runs. -/
structure HandlerWorld where
  method : String := "POST"
  env : WebhookEnv := {}
  stripeNet : StripeNetwork := {}
  graphql : GraphQLResponses := {}
  custIdFromOrder : Option String := none
  custIdByEmail : Option String := none
  deriving DecidableEq, Repr

/-- The HTTP responses the route can produce.  `crashed` models an uncaught
`TypeError` (assignment to a `const`, or `.replace` on `undefined`). -/
inductive WebhookResponse
  | methodNotAllowed
  | notConfigured
  | invalidBody
  | invalidSignature
  | received
  | failedRetrieveSession
  | failedRetrieveInvoice
  | failedCreateDraft
  | crashed
  deriving DecidableEq, Repr

/-- Observable outcome of one request. -/
structure HandlerOut where
  response : WebhookResponse
  shopifyCalls : List ShopifyCall := []
  loopCancelCalled : Bool := false
  loopCreateCalled : Bool := false
  deriving DecidableEq, Repr

/-- The flag test `loop.isEnabled()` as seen from the handler. -/
def loopFlagOn (v : Option String) : Bool :=
  v = some "true" || v = some "1"

/-- UTF-8 bytes of a character (for `encodeURIComponent`). -/
def utf8Bytes (c : Char) : List Nat :=
  let n := c.toNat
  if n < 0x80 then [n]
  else if n < 0x800 then [0xC0 + n / 0x40, 0x80 + n % 0x40]
  else if n < 0x10000 then
    [0xE0 + n / 0x1000, 0x80 + (n / 0x40) % 0x40, 0x80 + n % 0x40]
  else
    [0xF0 + n / 0x40000, 0x80 + (n / 0x1000) % 0x40, 0x80 + (n / 0x40) % 0x40,
      0x80 + n % 0x40]

/-- An uppercase hexadecimal digit. -/
def hexDigit (n : Nat) : Char :=
  if n < 10 then Char.ofNat (48 + n) else Char.ofNat (55 + n)

/-- Characters `encodeURIComponent` leaves unescaped. -/
def isUriUnreserved (c : Char) : Bool :=
  c.isAlphanum || c = '-' || c = '_' || c = '.' || c = '!' || c = '~' ||
    c = '*' || c = '\'' || c = '(' || c = ')'

/-- `encodeURIComponent`: percent-encode every UTF-8 byte of every character
outside the unreserved set. -/
def encodeURIComponent (s : String) : String :=
  String.mk (s.data.foldr
    (fun c acc =>
      if isUriUnreserved c then c :: acc
      else (utf8Bytes c).foldr
        (fun b acc2 => '%' :: hexDigit (b / 16) :: hexDigit (b % 16) :: acc2)
        acc)
    [])

/-- The UTM attribution entries collected from session metadata (lines
551-556): fixed key order, only string values with non-blank trim, stored
trimmed. -/
def utmEntries (md : Option SessionMetadata) : List (String × String) :=
  let fields : List (String × Option String) :=
    [("utm_source", md.bind (fun m => m.utm_source)),
     ("utm_medium", md.bind (fun m => m.utm_medium)),
     ("utm_campaign", md.bind (fun m => m.utm_campaign)),
     ("utm_term", md.bind (fun m => m.utm_term)),
     ("utm_content", md.bind (fun m => m.utm_content)),
     ("utm_id", md.bind (fun m => m.utm_id))]
  fields.filterMap (fun kv =>
    match kv.2 with
    | some v => if jsTrim v ≠ "" then some (kv.1, jsTrim v) else none
    | none => none)

/-- `SHOPIFY_ORDER_TAGS || null` / `SHOPIFY_SOURCE_NAME || null` and the
subsequent `if (value) payload.field = value`. -/
def envOrNull (v : Option String) : Option String :=
  if jsTruthy v then v else none

/-- `getShopifyCustomerIdFromOrder` (lines 400-412): no fetch when the order
id is blank; otherwise the lookup call is made and `result` is whatever the
response yields (`null` on any failure). -/
def getShopifyCustomerIdFromOrder (result : Option String) (orderId : String) :
    Option String × List ShopifyCall :=
  if orderId = "" || jsTrim orderId = "" then (none, [])
  else (result, [ShopifyCall.orderLookup orderId])

/-- `getShopifyCustomerIdByEmail` (lines 421-433): no fetch when the email is
blank; otherwise the search call is made. -/
def getShopifyCustomerIdByEmail (result : Option String) (email : String) :
    Option String × List ShopifyCall :=
  if email = "" || jsTrim email = "" then (none, [])
  else (result, [ShopifyCall.customerSearch email])

/-- The `customer.subscription.deleted` / `customer.subscription.updated`
branch (lines 476-499): when Loop sync is on and the subscription is gone or
in a cancelled-like status, resolve the customer's email and call
`loop.cancelSubscription`; every failure inside is caught, and the response
is always `{received:true}`. -/
def handleSubscriptionLifecycle (w : HandlerWorld) (ev : StripeEvent) :
    HandlerOut :=
  if loopFlagOn w.env.loopSyncEnabled then
    let status := ev.objSubStatus
    let isCanceled := status = some "canceled" || status = some "cancelled" ||
      status = some "unpaid" || status = some "incomplete_expired"
    if ev.type = "customer.subscription.deleted" || isCanceled then
      let emailNoThrow : Option String × Bool :=
        if jsTruthy ev.objSubCustomer then
          match w.stripeNet.customerRetrieve with
          | none => (none, false)
          | some (deleted, em) => (if deleted then none else em, true)
        else (none, true)
      if emailNoThrow.2 && jsTruthy emailNoThrow.1 then
        { response := .received, loopCancelCalled := true }
      else { response := .received }
    else { response := .received }
  else { response := .received }

/-- The `checkout.session.completed` branch (lines 535-617). -/
def handleCheckoutSession (w : HandlerWorld) (ev : StripeEvent) : HandlerOut :=
  match w.stripeNet.sessionRetrieve with
  | none => { response := .failedRetrieveSession }
  | some session =>
    let sessionId := ev.objectId
    let email := jsOr3 session.customer_email session.customerDetailsEmail
    let plan := sessionPlan (session.metadata.bind (fun m => m.plan))
    let amountTotal := match session.amount_total with
      | some a => a
      | none => 0
    let amountFormatted := jsAmountFormatted amountTotal
    let utm := utmEntries session.metadata
    let productId := coalesceEmpty (session.metadata.bind (fun m => m.product_id))
    let variantIdMeta := coalesceEmpty (session.metadata.bind (fun m => m.variant_id))
    let noteAttributes : List NoteAttr :=
      [⟨"stripe_session_id", sessionId⟩, ⟨"plan", plan⟩] ++
      (if productId ≠ "" then [⟨"product_id", productId⟩] else []) ++
      (if variantIdMeta ≠ "" then [⟨"variant_id", variantIdMeta⟩] else []) ++
      utm.map (fun kv => ⟨kv.1, kv.2⟩)
    let note :=
      "Stripe session: " ++ sessionId ++ ". Plan: " ++ plan ++ "." ++
      (if productId ≠ "" then " Product ID: " ++ productId ++ "." else "") ++
      (if variantIdMeta ≠ "" then " Variant ID: " ++ variantIdMeta ++ "." else "") ++
      (if utm ≠ [] then
        " UTM: " ++ String.intercalate "&"
          (utm.map (fun kv => kv.1 ++ "=" ++ encodeURIComponent kv.2))
      else "")
    let payload : DraftOrderPayload :=
      { line_items := buildLineItems plan amountFormatted variantIdMeta
        email := email
        note := note
        note_attributes := noteAttributes
        tags := envOrNull w.env.orderTags
        source_name := envOrNull w.env.sourceName }
    let currencyCode := match session.currency with
      | some c => if c ≠ "" then c.toUpper else "AUD"
      | none => "AUD"
    let res := createShopifyDraftOrderAndComplete w.graphql payload currencyCode
    if !res.1.ok then
      { response := .failedCreateDraft, shopifyCalls := res.2 }
    else
      if loopFlagOn w.env.loopSyncEnabled && jsTruthy email &&
          jsTruthy res.1.orderId then
        let shopifyOrderId := coalesceEmpty res.1.orderId
        let step1 :=
          if jsTruthy res.1.customerId then (res.1.customerId, ([] : List ShopifyCall))
          else getShopifyCustomerIdFromOrder w.custIdFromOrder shopifyOrderId
        let step2 :=
          if jsTruthy step1.1 then step1
          else
            let byEmail := getShopifyCustomerIdByEmail w.custIdByEmail
              (coalesceEmpty email)
            (byEmail.1, step1.2 ++ byEmail.2)
        { response := .received
          shopifyCalls := res.2 ++ step2.2
          loopCreateCalled := jsTruthy step2.1 }
      else { response := .received, shopifyCalls := res.2 }

/-- The guard `if (!invoice.subscription)` (line 631): the invoice is
associated with a subscription when the field holds a non-empty id string or
an expanded object. -/
def invoiceSubTruthy (invoice : StripeInvoice) : Bool :=
  match invoice.subscription with
  | none => false
  | some (.byId s) => s ≠ ""
  | some (.expanded _) => true

/-- The guard `if (invoice.amount_paid == null || invoice.amount_paid <= 0)`
(line 635), as the condition for proceeding. -/
def invoiceAmountPositive (invoice : StripeInvoice) : Bool :=
  match invoice.amount_paid with
  | none => false
  | some a => 0 < a

/-- The guard
`if (invoice.billing_reason && !billingReasons.includes(invoice.billing_reason))`
(lines 639-643): an absent or empty billing reason does NOT block. -/
def billingReasonBlocked (br : Option String) : Bool :=
  match br with
  | some s => s ≠ "" && !(s = "subscription_cycle" || s = "subscription_create")
  | none => false

/-- The subscription object the invoice path works with (lines 644-647): the
expanded `invoice.subscription` when present, otherwise the object returned
by `stripe.subscriptions.retrieve`. -/
def resolvedSubscription (w : HandlerWorld) (invoice : StripeInvoice) :
    StripeSubscription :=
  match invoice.subscription with
  | some (.expanded s) => s
  | _ => w.stripeNet.subscriptionRetrieve

/-- The `invoice.paid` branch (lines 619-695), including the guards of lines
631-643 and the `const note` reassignment of lines 670-672, which raises an
uncaught `TypeError` whenever the subscription metadata carries a non-empty
`product_id` or `variant_id`. -/
def handleInvoicePaid (w : HandlerWorld) (ev : StripeEvent) : HandlerOut :=
  match w.stripeNet.invoiceRetrieve with
  | none => { response := .failedRetrieveInvoice }
  | some invoice =>
    let invoiceId := ev.objectId
    if !invoiceSubTruthy invoice then { response := .received }
    else
      if !invoiceAmountPositive invoice then { response := .received }
      else
        if billingReasonBlocked invoice.billing_reason then
          { response := .received }
        else
          let subscription := resolvedSubscription w invoice
          let plan := invoicePlan (subscription.metadata.bind (fun m => m.plan))
            subscription.firstPriceId w.env.priceYearly w.env.priceMonthly
          let email := jsOr3 invoice.customer_email
            (match invoice.customer with
             | some (.inr c) => c.email
             | _ => none)
          let amountFormatted := jsAmountFormatted (match invoice.amount_paid with
            | some a => a
            | none => 0)
          let subId := match invoice.subscription with
            | some (.byId s) => some s
            | some (.expanded s) => some s.id
            | none => none
          let productIdSub := coalesceEmpty
            (subscription.metadata.bind (fun m => m.product_id))
          let variantIdSub := coalesceEmpty
            (subscription.metadata.bind (fun m => m.variant_id))
          let noteAttributes : List NoteAttr :=
            [⟨"stripe_invoice_id", invoiceId⟩,
             ⟨"stripe_subscription_id", coalesceEmpty subId⟩,
             ⟨"plan", plan⟩,
             ⟨"order_type", "recurring"⟩] ++
            (if productIdSub ≠ "" then [⟨"product_id", productIdSub⟩] else []) ++
            (if variantIdSub ≠ "" then [⟨"variant_id", variantIdSub⟩] else [])
          if productIdSub ≠ "" || variantIdSub ≠ "" then
            -- lines 670-672: `note += ...` on a `const` throws a TypeError
            -- before any Shopify call is issued
            { response := .crashed }
          else
            let note := "Recurring subscription order. Invoice: " ++ invoiceId ++
              ". Subscription: " ++ coalesceEmpty subId ++ ". Plan: " ++ plan ++ "."
            let payload : DraftOrderPayload :=
              { line_items := buildLineItems plan amountFormatted variantIdSub
                email := email
                note := note
                note_attributes := noteAttributes
                tags := envOrNull w.env.orderTags
                source_name := envOrNull w.env.sourceName }
            let currencyCode := match invoice.currency with
              | some c => if c ≠ "" then c.toUpper else "AUD"
              | none => "AUD"
            let res := createShopifyDraftOrderAndComplete w.graphql payload
              currencyCode
            if !res.1.ok then
              { response := .failedCreateDraft, shopifyCalls := res.2 }
            else { response := .received, shopifyCalls := res.2 }

/-- The webhook route (lines 435-696): method check, configuration check, raw
body read, signature verification, then dispatch on the event type.  When the
event is order-producing but `SHOPIFY_SHOP_DOMAIN` is unset, line 506 calls
`.replace` on `undefined` and the request dies with an uncaught `TypeError`
(`crashed`). -/
def webhookHandler (w : HandlerWorld) : HandlerOut :=
  if w.method ≠ "POST" then { response := .methodNotAllowed }
  else if !jsTruthy w.env.stripeSecretKey || !jsTruthy w.env.webhookSecret then
    { response := .notConfigured }
  else if !w.stripeNet.bodyReadOk then { response := .invalidBody }
  else
    match w.stripeNet.constructedEvent with
    | none => { response := .invalidSignature }
    | some ev =>
      if ev.type = "customer.subscription.deleted" ||
          ev.type = "customer.subscription.updated" then
        handleSubscriptionLifecycle w ev
      else if ev.type ≠ "checkout.session.completed" && ev.type ≠ "invoice.paid" then
        { response := .received }
      else
        match w.env.shopDomain with
        | none => { response := .crashed }
        | some dom =>
          if dom = "" || !jsTruthy w.env.shopToken then { response := .received }
          else if ev.type = "checkout.session.completed" then
            handleCheckoutSession w ev
          else handleInvoicePaid w ev

/-- The response mapping of the first-iteration handler around its REST order
writer (lines 171-183): `{ok:false}` becomes the 500 draft-failure response,
`{ok:true}` lets the handler acknowledge with `{received:true}`. -/
def restHandlerResponse (r : OrderResult) : WebhookResponse :=
  if r.ok then .received else .failedCreateDraft

/-! ### Observation helpers and concrete worlds used by the verification -/

/-- The payload of the first draft-order create call in a trace, if any — the
order payload the handler sent to the commerce backend. -/
def firstDraftPayload (calls : List ShopifyCall) : Option DraftOrderPayload :=
  calls.findSome? (fun c =>
    match c with
    | .draftCreate p _ => some p
    | .draftCreateRest p => some p
    | _ => none)

/-- Whether a trace contains a draft-order create call. -/
def sendsOrderPayload (out : HandlerOut) : Bool :=
  (firstDraftPayload out.shopifyCalls).isSome

/-- The `plan` note attribute of a payload. -/
def planAttr (p : DraftOrderPayload) : Option String :=
  (p.note_attributes.find? (fun a => a.name = "plan")).map (fun a => a.value)

/-- A fully configured environment (secrets, shop, token all set). -/
def envOkW : WebhookEnv :=
  { stripeSecretKey := some "sk_live_x", webhookSecret := some "whsec_x",
    shopDomain := some "example.myshopify.com", shopToken := some "shpat_x" }

/-- GraphQL responses in which both phases succeed. -/
def gqlOkW : GraphQLResponses :=
  { createResp :=
      { ok := true,
        body := some { draftOrderId := some "gid://shopify/DraftOrder/11",
                       userErrors := [] } }
    completeResp :=
      { ok := true,
        body := some
          { userErrors := [],
            order := some { legacyResourceId := some "1001",
                            id := "gid://shopify/Order/1001",
                            customer := none } } } }

/-- GraphQL responses in which the create phase succeeds and the complete
phase fails with an HTTP error. -/
def gqlCompleteFailW : GraphQLResponses :=
  { createResp :=
      { ok := true,
        body := some { draftOrderId := some "gid://shopify/DraftOrder/11",
                       userErrors := [] } }
    completeResp := { ok := false, body := none, errorText := "boom" } }

/-- An invoice that passes the subscription and amount guards and has a
`null` billing reason. -/
def invNullReasonW : StripeInvoice :=
  { subscription := some (.expanded { id := "sub_1" }),
    amount_paid := some 100,
    billing_reason := none }

/-- A world delivering a verified `invoice.paid` event for `invNullReasonW`. -/
def worldNullReasonW : HandlerWorld :=
  { env := envOkW,
    stripeNet :=
      { constructedEvent :=
          some { type := "invoice.paid", objectId := "in_1" },
        invoiceRetrieve := some invNullReasonW },
    graphql := gqlOkW }

/-- A world delivering a verified `checkout.session.completed` event whose
session create succeeds but whose draft-complete phase fails. -/
def worldCompleteFailW : HandlerWorld :=
  { env := envOkW,
    stripeNet :=
      { constructedEvent :=
          some { type := "checkout.session.completed", objectId := "cs_1" },
        sessionRetrieve := some { amount_total := some 9999 } },
    graphql := gqlCompleteFailW }

/-- A world delivering a verified `checkout.session.completed` event whose
session metadata carries the plan value `"weekly"`. -/
def worldWeeklyPlanW : HandlerWorld :=
  { env := envOkW,
    stripeNet :=
      { constructedEvent :=
          some { type := "checkout.session.completed", objectId := "cs_2" },
        sessionRetrieve :=
          some { metadata := some { plan := some "weekly" },
                 amount_total := some 9999 } },
    graphql := gqlOkW }

/-- A world delivering a verified `checkout.session.completed` event whose
retrieved session has no `amount_total`. -/
def worldNoAmountW : HandlerWorld :=
  { env := envOkW,
    stripeNet :=
      { constructedEvent :=
          some { type := "checkout.session.completed", objectId := "cs_3" },
        sessionRetrieve := some { amount_total := none } },
    graphql := gqlOkW }

/-- A world delivering a verified `invoice.paid` event that passes every
guard with an expanded subscription free of product/variant metadata. -/
def worldInvoiceOkW : HandlerWorld :=
  { env := envOkW,
    stripeNet :=
      { constructedEvent :=
          some { type := "invoice.paid", objectId := "in_2" },
        invoiceRetrieve :=
          some { subscription := some (.expanded { id := "sub_2" }),
                 amount_paid := some 9999,
                 billing_reason := some "subscription_cycle" } },
    graphql := gqlOkW }

/-- A world delivering a verified event of an unrecognized type. -/
def worldOtherTypeW : HandlerWorld :=
  { env := envOkW,
    stripeNet := { constructedEvent := some { type := "payment_intent.succeeded" } } }

/-- A world whose request fails signature verification. -/
def worldBadSigW : HandlerWorld :=
  { env := envOkW, stripeNet := { constructedEvent := none } }

/-- A Loop environment with sync enabled and a token set. -/
def loopEnvOnW : Loop.LoopEnv :=
  { syncEnabled := some "true", apiToken := some "tok" }

/-- A cancel run whose customer lookup succeeds with two subscription ids
and whose every cancel call fails. -/
def cancelNetAllFailW : Loop.CancelNetwork :=
  { customerResp :=
      { ok := true,
        body :=
          { subscriptions :=
              some (.list [.str "s1", .obj (some "s2"), .nullEntry, .str ""]) } }
    cancelOk := fun _ => false }

/-- A minimal draft-order payload (for exercising the order writers). -/
def emptyPayloadW : DraftOrderPayload := { line_items := [] }

/-- REST order-writer responses: create succeeds with draft id 7, complete
fails. -/
def restCompleteFailW : RestResponses :=
  { createResp := { ok := true, body := some { draftOrderId := some 7 } }
    completeOk := false }

/-! ### Numeric lemmas about the binary64 model -/

theorem natLog2Aux_spec : ∀ (fuel n : Nat), 1 ≤ n → n ≤ fuel →
    2 ^ natLog2Aux fuel n ≤ n ∧ n < 2 ^ (natLog2Aux fuel n + 1) := by
  intro fuel
  induction fuel with
  | zero => intro n h1 h2; omega
  | succ f ih =>
    intro n h1 h2
    unfold natLog2Aux
    by_cases h : 2 ≤ n
    · simp only [if_pos h]
      have hn2 : 1 ≤ n / 2 := (Nat.one_le_div_iff (by norm_num)).mpr h
      have hle : n / 2 ≤ f := by omega
      obtain ⟨lo, hi⟩ := ih (n / 2) hn2 hle
      have hdm : 2 * (n / 2) ≤ n := by omega
      have hdm2 : n < 2 * (n / 2) + 2 := by omega
      constructor
      · calc 2 ^ (natLog2Aux f (n / 2) + 1) = 2 * 2 ^ natLog2Aux f (n / 2) := by ring
          _ ≤ 2 * (n / 2) := by omega
          _ ≤ n := hdm
      · calc n < 2 * (n / 2) + 2 := hdm2
          _ ≤ 2 * 2 ^ (natLog2Aux f (n / 2) + 1) := by omega
          _ = 2 ^ (natLog2Aux f (n / 2) + 1 + 1) := by ring
    · simp only [if_neg h]
      have hn1 : n = 1 := by omega
      subst hn1
      norm_num

theorem natLog2_spec (n : Nat) (h : 1 ≤ n) :
    2 ^ natLog2 n ≤ n ∧ n < 2 ^ (natLog2 n + 1) :=
  natLog2Aux_spec n n h le_rfl

theorem int_fdiv_eq_floor (a b : ℤ) (hb : 0 < b) : a.fdiv b = ⌊(a : ℚ) / b⌋ := by
  have hbq : (0 : ℚ) < (b : ℚ) := by exact_mod_cast hb
  have hmod := Int.fdiv_add_fmod a b
  have hnn : (0 : ℤ) ≤ a.fmod b := Int.fmod_nonneg' a hb
  have hlt : a.fmod b < b := Int.fmod_lt_of_pos a hb
  have key : ((b : ℚ) * (a.fdiv b : ℚ) + (a.fmod b : ℚ)) = (a : ℚ) := by
    exact_mod_cast hmod
  symm
  rw [Int.floor_eq_iff]
  constructor
  · rw [le_div_iff₀ hbq]
    have hnnq : (0 : ℚ) ≤ (a.fmod b : ℚ) := by exact_mod_cast hnn
    nlinarith
  · rw [div_lt_iff₀ hbq]
    have hltq : ((a.fmod b : ℤ) : ℚ) < (b : ℚ) := by exact_mod_cast hlt
    nlinarith

theorem roundRatHalfEven_abs (num den : ℤ) (hd : 0 < den) :
    |((roundRatHalfEven num den : ℤ) : ℚ) - (num : ℚ) / (den : ℚ)| ≤ 1 / 2 := by
  have hdq : (0 : ℚ) < (den : ℚ) := by exact_mod_cast hd
  have hmod := Int.fdiv_add_fmod num den
  have hnn : (0 : ℤ) ≤ num.fmod den := Int.fmod_nonneg' num hd
  have hlt : num.fmod den < den := Int.fmod_lt_of_pos num hd
  have hrw : num - num.fdiv den * den = num.fmod den := by linarith [hmod]
  have hx : (num : ℚ) / den = (num.fdiv den : ℚ) + (num.fmod den : ℚ) / den := by
    field_simp
    have : ((den * num.fdiv den + num.fmod den : ℤ) : ℚ) = (num : ℚ) := by
      exact_mod_cast congrArg (fun z : ℤ => (z : ℚ)) hmod
    push_cast at this
    linarith
  have htnn : (0 : ℚ) ≤ (num.fmod den : ℚ) / den :=
    div_nonneg (by exact_mod_cast hnn) (le_of_lt hdq)
  have htlt : (num.fmod den : ℚ) / den < 1 := by
    rw [div_lt_one hdq]; exact_mod_cast hlt
  unfold roundRatHalfEven
  simp only [hrw]
  split_ifs with h1 h2 h3
  · -- 2 * fmod < den : round down
    have h1q : (num.fmod den : ℚ) / den ≤ 1 / 2 := by
      rw [div_le_div_iff₀ hdq (by norm_num : (0:ℚ) < 2)]
      have : (2 : ℚ) * (num.fmod den : ℚ) ≤ (den : ℚ) := by
        exact_mod_cast le_of_lt h1
      linarith
    rw [hx, abs_le]
    constructor <;> linarith
  · -- den < 2 * fmod : round up
    have h2q : (1 : ℚ) / 2 ≤ (num.fmod den : ℚ) / den := by
      rw [div_le_div_iff₀ (by norm_num : (0:ℚ) < 2) hdq]
      have : (den : ℚ) ≤ (2 : ℚ) * (num.fmod den : ℚ) := by
        exact_mod_cast le_of_lt h2
      linarith
    rw [hx, abs_le]
    constructor <;> push_cast <;> linarith
  · -- exact tie, even floor: round down, distance exactly 1/2
    have hteq : (num.fmod den : ℚ) / den = 1 / 2 := by
      rw [div_eq_div_iff (ne_of_gt hdq) (by norm_num : (2:ℚ) ≠ 0)]
      have : (2 : ℚ) * (num.fmod den : ℚ) = (den : ℚ) := by
        exact_mod_cast le_antisymm (not_lt.mp h2) (not_lt.mp h1)
      linarith
    rw [hx, abs_le]
    constructor <;> linarith
  · -- exact tie, odd floor: round up, distance exactly 1/2
    have hteq : (num.fmod den : ℚ) / den = 1 / 2 := by
      rw [div_eq_div_iff (ne_of_gt hdq) (by norm_num : (2:ℚ) ≠ 0)]
      have : (2 : ℚ) * (num.fmod den : ℚ) = (den : ℚ) := by
        exact_mod_cast le_antisymm (not_lt.mp h2) (not_lt.mp h1)
      linarith
    rw [hx, abs_le]
    constructor <;> push_cast <;> linarith

theorem roundRatHalfEven_one (a : ℤ) : roundRatHalfEven a 1 = a := by
  unfold roundRatHalfEven
  simp [Int.fdiv_one]

theorem div_lt_zpow_iff_int (num den : ℤ) (hd : 0 < den) (e : ℤ) :
    (num : ℚ) / (den : ℚ) < 2 ^ e ↔
      (if 0 ≤ e then num < den * 2 ^ e.toNat else num * 2 ^ (-e).toNat < den) := by
  have hdq : (0 : ℚ) < (den : ℚ) := by exact_mod_cast hd
  by_cases he : 0 ≤ e
  · rw [if_pos he, div_lt_iff₀ hdq]
    have h2 : ((2 ^ e.toNat : ℤ) : ℚ) = (2 : ℚ) ^ e := by
      push_cast
      rw [← zpow_natCast, Int.toNat_of_nonneg he]
    rw [show (2 : ℚ) ^ e * (den : ℚ) = ((den * 2 ^ e.toNat : ℤ) : ℚ) by
      push_cast [h2]; ring]
    exact Int.cast_lt
  · rw [if_neg he]
    have hne : (0 : ℤ) ≤ -e := by omega
    have h2 : ((2 ^ (-e).toNat : ℤ) : ℚ) = (2 : ℚ) ^ (-e) := by
      push_cast
      rw [← zpow_natCast, Int.toNat_of_nonneg hne]
    have hp : (0 : ℚ) < (2 : ℚ) ^ (-e) := by positivity
    rw [div_lt_iff₀ hdq]
    constructor
    · intro h
      have := mul_lt_mul_of_pos_right h hp
      rw [mul_comm ((2:ℚ)^e) (den : ℚ), mul_assoc, ← zpow_add₀ (by norm_num : (2:ℚ) ≠ 0)] at this
      simp only [add_neg_cancel, zpow_zero, mul_one] at this
      exact_mod_cast (by push_cast [h2] at this ⊢; linarith : ((num * 2 ^ (-e).toNat : ℤ) : ℚ) < (den : ℚ))
    · intro h
      have hq : (num : ℚ) * (2 : ℚ) ^ (-e) < (den : ℚ) := by
        rw [← h2]
        exact_mod_cast h
      have := mul_lt_mul_of_pos_right hq (by positivity : (0:ℚ) < (2:ℚ) ^ e)
      rw [mul_assoc, ← zpow_add₀ (by norm_num : (2:ℚ) ≠ 0)] at this
      simp only [neg_add_cancel, zpow_zero, mul_one] at this
      linarith [this]

theorem floorLog2Frac_spec (num den : ℤ) (hn : 0 < num) (hd : 0 < den) :
    (2 : ℚ) ^ floorLog2Frac num den ≤ (num : ℚ) / (den : ℚ) ∧
      (num : ℚ) / (den : ℚ) < 2 ^ (floorLog2Frac num den + 1) := by
  have hdq : (0 : ℚ) < (den : ℚ) := by exact_mod_cast hd
  have hnum1 : 1 ≤ num.toNat := by omega
  have hden1 : 1 ≤ den.toNat := by omega
  obtain ⟨na1, na2⟩ := natLog2_spec _ hnum1
  obtain ⟨nb1, nb2⟩ := natLog2_spec _ hden1
  set a := natLog2 num.toNat with ha
  set b := natLog2 den.toNat with hb
  -- bounds in ℚ with integer exponents
  have qa1 : (2 : ℚ) ^ (a : ℤ) ≤ (num : ℚ) := by
    rw [zpow_natCast]
    have h1 : ((2 ^ a : ℕ) : ℚ) ≤ ((num.toNat : ℕ) : ℚ) := by exact_mod_cast na1
    have h2 : ((num.toNat : ℕ) : ℚ) = (num : ℚ) := by
      rw [show ((num.toNat : ℕ) : ℚ) = ((num.toNat : ℤ) : ℚ) by push_cast; ring,
        Int.toNat_of_nonneg (le_of_lt hn)]
    push_cast at h1 ⊢
    linarith
  have qa2 : (num : ℚ) < (2 : ℚ) ^ ((a : ℤ) + 1) := by
    rw [show ((a : ℤ) + 1) = ((a + 1 : ℕ) : ℤ) by push_cast; ring, zpow_natCast]
    have h1 : ((num.toNat : ℕ) : ℚ) < ((2 ^ (a + 1) : ℕ) : ℚ) := by exact_mod_cast na2
    have h2 : ((num.toNat : ℕ) : ℚ) = (num : ℚ) := by
      rw [show ((num.toNat : ℕ) : ℚ) = ((num.toNat : ℤ) : ℚ) by push_cast; ring,
        Int.toNat_of_nonneg (le_of_lt hn)]
    push_cast at h1 ⊢
    linarith
  have qb1 : (2 : ℚ) ^ (b : ℤ) ≤ (den : ℚ) := by
    rw [zpow_natCast]
    have h1 : ((2 ^ b : ℕ) : ℚ) ≤ ((den.toNat : ℕ) : ℚ) := by exact_mod_cast nb1
    have h2 : ((den.toNat : ℕ) : ℚ) = (den : ℚ) := by
      rw [show ((den.toNat : ℕ) : ℚ) = ((den.toNat : ℤ) : ℚ) by push_cast; ring,
        Int.toNat_of_nonneg (le_of_lt hd)]
    push_cast at h1 ⊢
    linarith
  have qb2 : (den : ℚ) < (2 : ℚ) ^ ((b : ℤ) + 1) := by
    rw [show ((b : ℤ) + 1) = ((b + 1 : ℕ) : ℤ) by push_cast; ring, zpow_natCast]
    have h1 : ((den.toNat : ℕ) : ℚ) < ((2 ^ (b + 1) : ℕ) : ℚ) := by exact_mod_cast nb2
    have h2 : ((den.toNat : ℕ) : ℚ) = (den : ℚ) := by
      rw [show ((den.toNat : ℕ) : ℚ) = ((den.toNat : ℤ) : ℚ) by push_cast; ring,
        Int.toNat_of_nonneg (le_of_lt hd)]
    push_cast at h1 ⊢
    linarith
  set e0 : ℤ := (a : ℤ) - (b : ℤ) with he0
  have hq_lt : (num : ℚ) / (den : ℚ) < 2 ^ (e0 + 1) := by
    rw [div_lt_iff₀ hdq]
    have step : (2 : ℚ) ^ (e0 + 1) * (2 : ℚ) ^ (b : ℤ) = (2 : ℚ) ^ ((a : ℤ) + 1) := by
      rw [← zpow_add₀ (by norm_num : (2:ℚ) ≠ 0)]
      congr 1
      omega
    calc (num : ℚ) < (2 : ℚ) ^ ((a : ℤ) + 1) := qa2
      _ = (2 : ℚ) ^ (e0 + 1) * (2 : ℚ) ^ (b : ℤ) := step.symm
      _ ≤ (2 : ℚ) ^ (e0 + 1) * (den : ℚ) := by
          have := qb1
          have hp : (0:ℚ) < (2 : ℚ) ^ (e0 + 1) := by positivity
          nlinarith
  have hq_gt : (2 : ℚ) ^ (e0 - 1) < (num : ℚ) / (den : ℚ) := by
    rw [lt_div_iff₀ hdq]
    have step : (2 : ℚ) ^ (e0 - 1) * (2 : ℚ) ^ ((b : ℤ) + 1) = (2 : ℚ) ^ (a : ℤ) := by
      rw [← zpow_add₀ (by norm_num : (2:ℚ) ≠ 0)]
      congr 1
      omega
    calc (2 : ℚ) ^ (e0 - 1) * (den : ℚ)
        < (2 : ℚ) ^ (e0 - 1) * (2 : ℚ) ^ ((b : ℤ) + 1) := by
          have hp : (0:ℚ) < (2 : ℚ) ^ (e0 - 1) := by positivity
          nlinarith
      _ = (2 : ℚ) ^ (a : ℤ) := step
      _ ≤ (num : ℚ) := qa1
  -- unfold the definition and case on the branch test
  have hraw : floorLog2Frac num den =
      if (if 0 ≤ e0 then decide (num < den * 2 ^ e0.toNat)
          else decide (num * 2 ^ (-e0).toNat < den)) = true
      then e0 - 1 else e0 := rfl
  have hcb : ((if 0 ≤ e0 then decide (num < den * 2 ^ e0.toNat)
      else decide (num * 2 ^ (-e0).toNat < den)) = true) ↔
      ((num : ℚ) / (den : ℚ) < 2 ^ e0) := by
    rw [div_lt_zpow_iff_int num den hd e0]
    by_cases h0 : 0 ≤ e0 <;> simp [h0]
  have hdef : floorLog2Frac num den =
      if ((num : ℚ) / (den : ℚ) < 2 ^ e0) then e0 - 1 else e0 := by
    rw [hraw]
    by_cases hc : (num : ℚ) / (den : ℚ) < 2 ^ e0
    · rw [if_pos (hcb.mpr hc), if_pos hc]
    · rw [if_neg (fun h => hc (hcb.mp h)), if_neg hc]
  rw [hdef]
  by_cases hc : (num : ℚ) / (den : ℚ) < 2 ^ e0
  · rw [if_pos hc]
    constructor
    · exact le_of_lt hq_gt
    · simpa using hc
  · rw [if_neg hc]
    exact ⟨not_lt.mp hc, hq_lt⟩

theorem Dbl.val_mk (m e : ℤ) : (Dbl.mk m e).val = (m : ℚ) * (2 : ℚ) ^ e := rfl

theorem abs_sub_scale (R q t : ℚ) (ht : 0 < t) (h : |R - q / t| ≤ 1 / 2) :
    |R * t - q| ≤ t / 2 := by
  have key : R * t - q = (R - q / t) * t := by
    field_simp
  rw [key, abs_mul, abs_of_pos ht]
  calc |R - q / t| * t ≤ (1 / 2) * t := by nlinarith [abs_nonneg (R - q / t)]
    _ = t / 2 := by ring

theorem zpow_half_eq (E : ℤ) : ((2 : ℚ) ^ (E - 52)) / 2 = 2 ^ (E - 53) := by
  have h := zpow_add₀ (by norm_num : (2:ℚ) ≠ 0) (E - 53) 1
  rw [zpow_one] at h
  rw [show E - 52 = E - 53 + 1 by omega, h]
  ring

theorem roundDblPos_eq (num den : ℤ) :
    roundDblPos num den =
      ⟨if 0 ≤ 52 - floorLog2Frac num den
        then roundRatHalfEven
          (num * 2 ^ (52 - floorLog2Frac num den).toNat) den
        else roundRatHalfEven num
          (den * 2 ^ (-(52 - floorLog2Frac num den)).toNat),
       floorLog2Frac num den - 52⟩ := rfl

theorem roundDblPos_err (num den : ℤ) (_hn : 0 < num) (hd : 0 < den) :
    |(roundDblPos num den).val - (num : ℚ) / (den : ℚ)| ≤
      2 ^ (floorLog2Frac num den - 53) := by
  have ht : (0 : ℚ) < (2 : ℚ) ^ (floorLog2Frac num den - 52) := by positivity
  rw [← zpow_half_eq]
  by_cases hss : 0 ≤ 52 - floorLog2Frac num den
  · rw [roundDblPos_eq, if_pos hss, Dbl.val_mk]
    have habs := roundRatHalfEven_abs
      (num * 2 ^ (52 - floorLog2Frac num den).toNat) den hd
    apply abs_sub_scale _ _ _ ht
    have h2 : ((2 ^ (52 - floorLog2Frac num den).toNat : ℤ) : ℚ) =
        (2 : ℚ) ^ (52 - floorLog2Frac num den) := by
      push_cast
      rw [← zpow_natCast, Int.toNat_of_nonneg hss]
    have hinv : ((2 : ℚ) ^ (floorLog2Frac num den - 52))⁻¹ =
        (2 : ℚ) ^ (52 - floorLog2Frac num den) := by
      rw [← zpow_neg]
      congr 1
      omega
    have hqt : ((num * 2 ^ (52 - floorLog2Frac num den).toNat : ℤ) : ℚ) / (den : ℚ) =
        ((num : ℚ) / (den : ℚ)) / ((2 : ℚ) ^ (floorLog2Frac num den - 52)) := by
      push_cast [h2]
      rw [div_eq_mul_inv ((num : ℚ) / (den : ℚ)), hinv]
      ring
    rw [← hqt]
    exact habs
  · rw [roundDblPos_eq, if_neg hss, Dbl.val_mk]
    have hd2 : (0 : ℤ) < den * 2 ^ (-(52 - floorLog2Frac num den)).toNat := by
      positivity
    have habs := roundRatHalfEven_abs num
      (den * 2 ^ (-(52 - floorLog2Frac num den)).toNat) hd2
    apply abs_sub_scale _ _ _ ht
    have h2 : ((2 ^ (-(52 - floorLog2Frac num den)).toNat : ℤ) : ℚ) =
        (2 : ℚ) ^ (floorLog2Frac num den - 52) := by
      push_cast
      rw [← zpow_natCast, Int.toNat_of_nonneg (by omega : (0:ℤ) ≤ -(52 - floorLog2Frac num den))]
      congr 1
      omega
    have hqt : (num : ℚ) / ((den * 2 ^ (-(52 - floorLog2Frac num den)).toNat : ℤ) : ℚ) =
        ((num : ℚ) / (den : ℚ)) / ((2 : ℚ) ^ (floorLog2Frac num den - 52)) := by
      push_cast [h2]
      rw [div_div]
    rw [← hqt]
    exact habs

theorem toFixedCents_eq (d : Dbl) (hm : 0 ≤ d.m) :
    toFixedCents d = ⌊d.val * 100 + 1 / 2⌋ := by
  have hnotneg : ¬ d.m < 0 := not_lt.mpr hm
  by_cases he : 0 ≤ d.e
  · have hraw : toFixedCents d =
        (2 * (100 * d.m * 2 ^ d.e.toNat) + 1).fdiv (2 * 1) := by
      unfold toFixedCents
      simp only [if_neg hnotneg, if_pos he]
    have h2 : ((2 ^ d.e.toNat : ℤ) : ℚ) = (2 : ℚ) ^ d.e := by
      push_cast
      rw [← zpow_natCast, Int.toNat_of_nonneg he]
    rw [hraw, int_fdiv_eq_floor _ _ (by norm_num : (0:ℤ) < 2 * 1)]
    congr 1
    unfold Dbl.val
    push_cast [h2]
    field_simp
    ring
  · have hraw : toFixedCents d =
        (2 * (100 * d.m) + 2 ^ (-d.e).toNat).fdiv (2 * 2 ^ (-d.e).toNat) := by
      unfold toFixedCents
      simp only [if_neg hnotneg, if_neg he]
    have h2 : ((2 ^ (-d.e).toNat : ℤ) : ℚ) = (2 : ℚ) ^ (-d.e) := by
      push_cast
      rw [← zpow_natCast, Int.toNat_of_nonneg (by omega : (0:ℤ) ≤ -d.e)]
    have hpq : (0 : ℚ) < (2 : ℚ) ^ (-d.e) := by positivity
    have hinv : (2 : ℚ) ^ d.e * (2 : ℚ) ^ (-d.e) = 1 := by
      rw [← zpow_add₀ (by norm_num : (2:ℚ) ≠ 0)]
      simp
    rw [hraw, int_fdiv_eq_floor _ _ (by positivity : (0:ℤ) < 2 * 2 ^ (-d.e).toNat)]
    congr 1
    unfold Dbl.val
    push_cast [h2]
    rw [div_eq_iff (by positivity : (2 : ℚ) * (2:ℚ) ^ (-d.e) ≠ 0)]
    linear_combination (-200 : ℚ) * (d.m : ℚ) * hinv

theorem two_zpow_neg_ten : (2 : ℚ) ^ (-(10:ℤ)) = 1 / 1024 := by
  rw [zpow_neg]
  norm_num

theorem roundDbl_div100_cents (M D : ℤ) (hM : 0 < M) (hD : 0 < D) (n : ℕ)
    (hn1 : 1 ≤ n) (hval : (M : ℚ) / (D : ℚ) = (n : ℚ) / 100)
    (hsize : (n : ℚ) / 100 < 2 ^ (44:ℤ)) :
    toFixedCents (roundDbl M D) = (n : ℤ) := by
  have hd : roundDbl M D = roundDblPos M D := by
    unfold roundDbl
    rw [if_neg (by omega : ¬ M = 0), if_neg (by omega : ¬ M < 0)]
  obtain ⟨l2, u2⟩ := floorLog2Frac_spec M D hM hD
  rw [hval] at l2 u2
  have hE2 : floorLog2Frac M D ≤ 43 := by
    have hlt : (2:ℚ) ^ floorLog2Frac M D < 2 ^ (44:ℤ) := lt_of_le_of_lt l2 hsize
    have := (zpow_lt_zpow_iff_right₀ one_lt_two).mp hlt
    omega
  have herr := roundDblPos_err M D hM hD
  rw [hval] at herr
  have hbound : (2:ℚ) ^ (floorLog2Frac M D - 53) ≤ 2 ^ (-(10:ℤ)) :=
    zpow_le_zpow_right₀ one_le_two (by omega)
  rw [two_zpow_neg_ten] at hbound
  have habs := abs_le.mp herr
  have hn1q : (1:ℚ) ≤ (n:ℚ) := by exact_mod_cast hn1
  have hm2 : 0 ≤ (roundDblPos M D).m := by
    by_contra hneg
    have hp : (0:ℚ) < (2:ℚ) ^ (roundDblPos M D).e := by positivity
    have hmq : ((roundDblPos M D).m : ℚ) < 0 := by exact_mod_cast not_le.mp hneg
    have hvneg : (roundDblPos M D).val < 0 := by
      unfold Dbl.val
      exact mul_neg_of_neg_of_pos hmq hp
    have : (1:ℚ)/100 ≤ (n:ℚ)/100 := by linarith
    linarith [habs.1, habs.2, hbound]
  rw [hd, toFixedCents_eq _ hm2, Int.floor_eq_iff]
  constructor
  · push_cast
    linarith [habs.1, hbound]
  · push_cast
    linarith [habs.2, hbound]

theorem jsAmountCents_exact (n : ℕ) (h : n ≤ 10 ^ 15) :
    jsAmountCents (n : ℤ) = (n : ℤ) := by
  by_cases h0 : n = 0
  · subst h0
    decide
  · have hn1 : 1 ≤ n := Nat.one_le_iff_ne_zero.mpr h0
    have hnz : (0:ℤ) < (n:ℤ) := by exact_mod_cast hn1
    obtain ⟨l1, u1⟩ := floorLog2Frac_spec (n:ℤ) 1 hnz one_pos
    rw [Int.cast_one, div_one] at l1 u1
    have hq50 : ((n:ℤ):ℚ) < 2 ^ (50:ℤ) := by
      rw [show ((50:ℤ)) = ((50:ℕ) : ℤ) from rfl, zpow_natCast]
      have hle : ((n:ℤ):ℚ) ≤ ((10:ℚ) ^ (15:ℕ)) := by
        push_cast
        exact_mod_cast h
      calc ((n:ℤ):ℚ) ≤ (10:ℚ) ^ (15:ℕ) := hle
        _ < 2 ^ (50:ℕ) := by norm_num
    have hE1le : floorLog2Frac (n:ℤ) 1 ≤ 49 := by
      have hlt : (2:ℚ) ^ floorLog2Frac (n:ℤ) 1 < 2 ^ (50:ℤ) := lt_of_le_of_lt l1 hq50
      have := (zpow_lt_zpow_iff_right₀ one_lt_two).mp hlt
      omega
    have hs1 : (0:ℤ) ≤ 52 - floorLog2Frac (n:ℤ) 1 := by omega
    have ha : roundDbl (n:ℤ) 1 =
        ⟨(n:ℤ) * 2 ^ (52 - floorLog2Frac (n:ℤ) 1).toNat,
          floorLog2Frac (n:ℤ) 1 - 52⟩ := by
      unfold roundDbl
      rw [if_neg (by omega : ¬ (n:ℤ) = 0), if_neg (by omega : ¬ (n:ℤ) < 0),
        roundDblPos_eq, if_pos hs1, roundRatHalfEven_one]
    have hMpos : (0:ℤ) < (n:ℤ) * 2 ^ (52 - floorLog2Frac (n:ℤ) 1).toNat := by
      positivity
    have hene : ¬ (0:ℤ) ≤ floorLog2Frac (n:ℤ) 1 - 52 := by omega
    have hjs : jsAmountCents (n:ℤ) =
        toFixedCents (roundDbl
          ((n:ℤ) * 2 ^ (52 - floorLog2Frac (n:ℤ) 1).toNat)
          (100 * 2 ^ (-(floorLog2Frac (n:ℤ) 1 - 52)).toNat)) := by
      simp only [jsAmountCents, ha]
      rw [if_neg (by omega : ¬ (n:ℤ) * 2 ^ (52 - floorLog2Frac (n:ℤ) 1).toNat = 0),
        if_neg hene]
    have hkrw : (-(floorLog2Frac (n:ℤ) 1 - 52)).toNat =
        (52 - floorLog2Frac (n:ℤ) 1).toNat := by
      congr 1
      ring
    rw [hjs, hkrw]
    apply roundDbl_div100_cents _ _ hMpos (by positivity) n hn1
    · push_cast
      have hp : ((2:ℚ) ^ (52 - floorLog2Frac (n:ℤ) 1).toNat) ≠ 0 := by positivity
      field_simp
      ring
    · have hle : ((n:ℚ)) ≤ ((10:ℚ) ^ (15:ℕ)) := by exact_mod_cast h
      rw [show ((44:ℤ)) = ((44:ℕ) : ℤ) from rfl, zpow_natCast]
      rw [div_lt_iff₀ (by norm_num : (0:ℚ) < 100)]
      calc (n:ℚ) ≤ (10:ℚ) ^ (15:ℕ) := hle
        _ < 2 ^ (44:ℕ) * 100 := by norm_num

theorem centsToString_natCast (n : ℕ) :
    centsToString (n : ℤ) = exactTwoDecString n := by
  unfold centsToString centsToStringNat exactTwoDecString
  rw [if_neg (by omega : ¬ (n:ℤ) < 0)]
  simp

/-! ### Claim C5 — `amountFormatted` exactness -/

/-- C5 counterexample: the claim "the computed `amountFormatted` equals the
exact two-decimal representation of `n / 100` with no rounding error for any
non-negative integer `n`" fails at `n = 2^53 + 1 = 9007199254740993`: the JSON
value is rounded to the nearest binary64 before the division, and the handler
prints `"90071992547409.92"` instead of the exact `"90071992547409.93"`. -/
theorem c5_counterexample :
    jsAmountFormatted (9007199254740993 : ℤ) ≠
      exactTwoDecString 9007199254740993 ∧
    jsAmountFormatted (9007199254740993 : ℤ) = "90071992547409.92" ∧
    exactTwoDecString 9007199254740993 = "90071992547409.93" := by
  refine ⟨?_, ?_, ?_⟩ <;> decide

/-- C5 (amended): for every non-negative integer amount `n ≤ 10^15` in the
smallest currency unit (a bound far above any processable charge, but inside
binary64 precision), the computed `amountFormatted` equals the exact fixed
two-decimal-place decimal representation of `n / 100`; exactness can fail
only beyond 2^53, where the amount integer itself is not representable. -/
theorem c5_amountFormatted_exact (n : ℕ) (h : n ≤ 10 ^ 15) :
    jsAmountFormatted (n : ℤ) = exactTwoDecString n := by
  unfold jsAmountFormatted
  rw [jsAmountCents_exact n h, centsToString_natCast]

/-- C5 witness: the amended theorem applied at the spec's Scenario A amount
`9999`, yielding the exact string `"99.99"`. -/
theorem c5_amended_witness :
    jsAmountFormatted (9999 : ℤ) = exactTwoDecString 9999 ∧
      exactTwoDecString 9999 = "99.99" :=
  ⟨c5_amountFormatted_exact 9999 (by norm_num), by decide⟩

/-! ### Claim C3 — trial line items -/

theorem buildLineItems_trial (plan mv : String) :
    buildLineItems plan "0.00" mv =
      [{ variant_id := none,
         title := some (if plan = "yearly" then titleYearlyTrial
           else titleMonthlyTrial),
         price := "0.00", quantity := 1, taxable := none }] := by
  unfold buildLineItems
  by_cases hp : plan = "yearly" <;> simp [hp]

/-- C3: for every plan and every metadata variant id, when the charged
amount formats to `"0.00"` the produced line-item list is exactly one
free-text trial-titled line carrying price `"0.00"`; and for every amount the
list never contains a catalog-variant reference (`variant_id` is never set by
this `buildLineItems`). -/
theorem c3_trial_line_item (plan mv : String) :
    buildLineItems plan "0.00" mv =
      [{ variant_id := none,
         title := some (if plan = "yearly" then titleYearlyTrial
           else titleMonthlyTrial),
         price := "0.00", quantity := 1, taxable := none }] ∧
    (∀ amt : String, ∀ li ∈ buildLineItems plan amt mv, li.variant_id = none) := by
  refine ⟨buildLineItems_trial plan mv, ?_⟩
  intro amt li hli
  unfold buildLineItems at hli
  simp only [List.mem_singleton] at hli
  subst hli
  rfl

/-- C3 witness: the theorem applied at plan `yearly` — the trial list, and
the variant-freeness of a paid line item. -/
theorem c3_trial_witness :
    buildLineItems "yearly" "0.00" "" =
      [{ variant_id := none, title := some titleYearlyTrial, price := "0.00",
         quantity := 1, taxable := none }] ∧
    ({ variant_id := none, title := some titleYearlyPaid, price := "99.99",
       quantity := 1, taxable := none } : LineItem).variant_id = none := by
  constructor
  · exact ((c3_trial_line_item "yearly" "").1).trans (by decide)
  · exact (c3_trial_line_item "yearly" "").2 "99.99" _ (by decide)

/-! ### Claim C6 — plan resolution -/

/-- C6 counterexample: the claim "the handler resolves exactly one
PlanSelection in {yearly, monthly}" fails when the session metadata carries a
foreign plan value: with `metadata.plan = "weekly"` the handler adopts
`"weekly"` verbatim (it reaches the order payload's `plan` note attribute),
which is in neither `{"yearly", "monthly"}`. -/
theorem c6_counterexample :
    sessionPlan (some "weekly") = "weekly" ∧
    ((firstDraftPayload (webhookHandler worldWeeklyPlanW).shopifyCalls).bind
      planAttr) = some "weekly" ∧
    ("weekly" ≠ "yearly" ∧ "weekly" ≠ "monthly") := by
  refine ⟨?_, ?_, ?_, ?_⟩ <;> decide

/-- C6 (amended): plan resolution is a total function on both paths; whenever
the metadata carries no plan information the session path resolves `yearly`,
and the invoice path resolves `yearly` when additionally no price id is
available, and resolves into {yearly, monthly} whenever the metadata plan is
absent (via the price-id match with yearly fallback); a present non-empty
metadata plan value is adopted verbatim on both paths — so the resolved plan
lies in {yearly, monthly} exactly when the metadata's value does, which holds
for every session created by this system's checkout endpoint. -/
theorem c6_plan_resolution (mp pid py pm : Option String) :
    (jsTruthy mp = false → sessionPlan mp = "yearly" ∧
      (invoicePlan mp pid py pm = "yearly" ∨
        invoicePlan mp pid py pm = "monthly")) ∧
    (jsTruthy mp = false → jsTruthy pid = false →
      invoicePlan mp pid py pm = "yearly") ∧
    (∀ s, mp = some s → s ≠ "" →
      sessionPlan mp = s ∧ invoicePlan mp pid py pm = s) := by
  refine ⟨?_, ?_, ?_⟩
  · intro hmp
    constructor
    · unfold sessionPlan
      match mp, hmp with
      | none, _ => rfl
      | some s, hmp =>
        have hs : s = "" := by
          by_contra hne
          simp [jsTruthy, hne] at hmp
        subst hs
        rfl
    · unfold invoicePlan
      simp only [hmp, Bool.not_false, Bool.true_and]
      by_cases hpid : jsTruthy pid = true
      · rw [if_pos hpid]
        match pid, hpid with
        | some p, _ =>
          by_cases hy : py = some p
          · left; simp [hy]
          · by_cases hmth : pm = some p
            · right; simp [hy, hmth]
            · left; simp [hy, hmth]
      · rw [if_neg (by simpa using hpid)]
        left
        match mp, hmp with
        | none, _ => rfl
        | some s, hmp =>
          have hs : s = "" := by
            by_contra hne
            simp [jsTruthy, hne] at hmp
          subst hs
          rfl
  · intro hmp hpid
    unfold invoicePlan
    simp only [hmp, Bool.not_false, Bool.true_and, hpid, Bool.and_false]
    simp only [if_neg (by simp : ¬ (false : Bool) = true)]
    match mp, hmp with
    | none, _ => rfl
    | some s, hmp =>
      have hs : s = "" := by
        by_contra hne
        simp [jsTruthy, hne] at hmp
      subst hs
      rfl
  · intro s hmp hs
    subst hmp
    have ht : jsTruthy (some s) = true := by simp [jsTruthy, hs]
    constructor
    · unfold sessionPlan
      simp [hs]
    · unfold invoicePlan
      simp only [ht, Bool.not_true, Bool.false_and, if_neg (by simp : ¬ (false : Bool) = true)]
      simp [hs]

/-- C6 witness: the amended theorem applied with absent metadata (resolving
`yearly` on both paths) and with a verbatim non-empty value. -/
theorem c6_plan_witness :
    sessionPlan none = "yearly" ∧
    invoicePlan none none none none = "yearly" ∧
    sessionPlan (some "monthly") = "monthly" := by
  refine ⟨?_, ?_, ?_⟩
  · exact ((c6_plan_resolution none none none none).1 (by decide)).1
  · exact (c6_plan_resolution none none none none).2.1 (by decide) (by decide)
  · exact ((c6_plan_resolution (some "monthly") none none none).2.2 "monthly"
      rfl (by decide)).1

/-! ### Claim C7 — sync disabled is a no-op -/

/-- C7: when the Loop sync flag is off, `createSubscription` and
`cancelSubscription` both return `{ok:true}` immediately and make zero
outbound calls, for every input and every environment. -/
theorem c7_sync_disabled_noop (env : Loop.LoopEnv) (nowMs : Int)
    (email : String) (plan : Option String) (cid : String)
    (oid : Option String) (createResp : HttpResp Unit)
    (net : Loop.CancelNetwork) (h : Loop.isEnabled env = false) :
    Loop.createSubscription env nowMs email plan cid oid createResp =
      ({ ok := true }, []) ∧
    Loop.cancelSubscription env email net = ({ ok := true }, []) := by
  constructor
  · unfold Loop.createSubscription
    rw [h]
    rfl
  · unfold Loop.cancelSubscription
    rw [h]
    rfl

/-- C7 witness: the no-op theorem applied at a concrete disabled environment
and concrete arguments. -/
theorem c7_sync_disabled_witness :
    Loop.createSubscription {} 0 "a@b.c" none "77" (some "88")
      { ok := true, body := () } = ({ ok := true }, []) ∧
    Loop.cancelSubscription {} "a@b.c"
      { customerResp := { ok := true, body := {} } } = ({ ok := true }, []) :=
  c7_sync_disabled_noop {} 0 "a@b.c" none "77" (some "88")
    { ok := true, body := () } { customerResp := { ok := true, body := {} } }
    (by decide)

/-! ### Claim C10 — cancel reports success regardless of cancel outcomes -/

/-- C10: on every enabled-flag run of `cancelSubscription` whose customer
lookup responds successfully, the result is `{ok:true}` — for every response
body shape (including one yielding zero subscription ids) and every outcome
of the per-subscription cancel POSTs, whose failures are only logged.  A
returned `ok:true` therefore does not imply any subscription was cancelled. -/
theorem c10_cancel_ok_regardless (env : Loop.LoopEnv) (email : String)
    (net : Loop.CancelNetwork) (hEn : Loop.isEnabled env = true)
    (hne : email ≠ "") (htrim : jsTrim email ≠ "")
    (hTok : jsTruthy env.apiToken = true)
    (hLookup : net.customerResp.ok = true) :
    (Loop.cancelSubscription env email net).1 = { ok := true } := by
  unfold Loop.cancelSubscription
  rw [hEn]
  simp only [Bool.not_true]
  rw [if_neg (by simp)]
  rw [if_neg (by simp [hne, htrim])]
  rw [hTok]
  simp only [Bool.not_true]
  rw [if_neg (by simp)]
  rw [hLookup]
  simp only [Bool.not_true]
  rw [if_neg (by simp)]
  split <;> rfl

/-- C10 witness: the theorem applied at a run whose lookup finds two
subscription ids and whose every cancel POST fails; the trace still shows the
two cancel calls and the result is `{ok:true}`. -/
theorem c10_cancel_witness :
    (Loop.cancelSubscription loopEnvOnW "a@b.c" cancelNetAllFailW).1 =
      { ok := true } ∧
    (Loop.cancelSubscription loopEnvOnW "a@b.c" cancelNetAllFailW).2 =
      [Loop.LoopCall.customerLookup "a@b.c", Loop.LoopCall.cancelSub "s1",
        Loop.LoopCall.cancelSub "s2"] :=
  ⟨c10_cancel_ok_regardless loopEnvOnW "a@b.c" cancelNetAllFailW (by decide)
      (by decide) (by decide) (by decide) rfl,
    by rfl⟩

/-! ### Claim C2 — complete-phase failure handling -/

/-- C2 counterexample: the claim "a successful create phase followed by a
failed complete phase still yields `{ok:true}` and a success response, for
every implementation of `createShopifyDraftOrderAndComplete` in the source"
fails on the GraphQL implementation: with a successful create (the trace
shows both phases were attempted) and a failed complete, the result is
`ok = false` and the handler responds with the draft-failure error. -/
theorem c2_counterexample :
    gqlCompleteFailW.createResp.ok = true ∧
    (createShopifyDraftOrderAndComplete gqlCompleteFailW emptyPayloadW "AUD").2 =
      [ShopifyCall.draftCreate emptyPayloadW "AUD",
       ShopifyCall.draftComplete "gid://shopify/DraftOrder/11"] ∧
    (createShopifyDraftOrderAndComplete gqlCompleteFailW emptyPayloadW
      "AUD").1.ok = false ∧
    (webhookHandler worldCompleteFailW).response = .failedCreateDraft := by
  refine ⟨?_, ?_, ?_, ?_⟩ <;> decide

/-- C2 (amended): the claim holds for the REST implementation of
`createShopifyDraftOrderAndComplete` (first iteration): whenever the create
phase succeeds, the result is `{ok:true}` — regardless of the complete
phase's outcome — and the handler's response mapping yields the success
acknowledgement; the GraphQL implementation instead treats a failed complete
phase as a failure (see the counterexample). -/
theorem c2_rest_complete_failure_ok (net : RestResponses)
    (payload : DraftOrderPayload) (hCreate : net.createResp.ok = true) :
    (restCreateAndComplete net payload).1 = { ok := true } ∧
    restHandlerResponse (restCreateAndComplete net payload).1 = .received := by
  have h1 : (restCreateAndComplete net payload).1 = { ok := true } := by
    unfold restCreateAndComplete
    rw [hCreate]
    simp only [Bool.not_true]
    rw [if_neg (by simp)]
    split <;> rfl
  refine ⟨h1, ?_⟩
  rw [h1]
  rfl

/-- C2 witness: the REST writer with a successful create (draft id 7) and a
failed complete PUT still reports `{ok:true}` and the success response. -/
theorem c2_rest_witness :
    (restCreateAndComplete restCompleteFailW emptyPayloadW).1 = { ok := true } ∧
    restHandlerResponse (restCreateAndComplete restCompleteFailW
      emptyPayloadW).1 = .received :=
  c2_rest_complete_failure_ok restCompleteFailW emptyPayloadW rfl

/-! ### Handler-path helpers -/

theorem firstDraftPayload_of_createAndComplete (net : GraphQLResponses)
    (p : DraftOrderPayload) (cc : String) :
    firstDraftPayload (createShopifyDraftOrderAndComplete net p cc).2 = some p := by
  simp only [createShopifyDraftOrderAndComplete, firstDraftPayload]
  repeat' split
  all_goals rfl

theorem firstDraftPayload_of_createAndComplete_append (net : GraphQLResponses)
    (p : DraftOrderPayload) (cc : String) (l2 : List ShopifyCall) :
    firstDraftPayload ((createShopifyDraftOrderAndComplete net p cc).2 ++ l2) =
      some p := by
  simp only [createShopifyDraftOrderAndComplete, firstDraftPayload]
  repeat' split
  all_goals rfl

theorem firstDraftPayload_sessionBranches (net : GraphQLResponses)
    (P : DraftOrderPayload) (cc : String) (c1 c2 : Prop) [Decidable c1]
    [Decidable c2] (l2 : List ShopifyCall) :
    firstDraftPayload
      (if c1 then (createShopifyDraftOrderAndComplete net P cc).2
       else if c2 then (createShopifyDraftOrderAndComplete net P cc).2 ++ l2
       else (createShopifyDraftOrderAndComplete net P cc).2) = some P := by
  split
  · exact firstDraftPayload_of_createAndComplete net P cc
  · split
    · exact firstDraftPayload_of_createAndComplete_append net P cc l2
    · exact firstDraftPayload_of_createAndComplete net P cc

theorem firstDraftPayload_invoiceBranches (net : GraphQLResponses)
    (P : DraftOrderPayload) (cc : String) (c : Prop) [Decidable c] :
    firstDraftPayload
      (if c then (createShopifyDraftOrderAndComplete net P cc).2
       else (createShopifyDraftOrderAndComplete net P cc).2) = some P := by
  split <;> exact firstDraftPayload_of_createAndComplete net P cc

theorem webhookHandler_session_path (w : HandlerWorld) (ev : StripeEvent)
    (dom : String) (hm : w.method = "POST")
    (hk : jsTruthy w.env.stripeSecretKey = true)
    (hs : jsTruthy w.env.webhookSecret = true)
    (hb : w.stripeNet.bodyReadOk = true)
    (he : w.stripeNet.constructedEvent = some ev)
    (ht : ev.type = "checkout.session.completed")
    (hd : w.env.shopDomain = some dom) (hdom : dom ≠ "")
    (htok : jsTruthy w.env.shopToken = true) :
    webhookHandler w = handleCheckoutSession w ev := by
  unfold webhookHandler
  rw [hm, hk, hs, hb, he, hd]
  simp [ht, hdom, htok]

theorem webhookHandler_invoice_path (w : HandlerWorld) (ev : StripeEvent)
    (dom : String) (hm : w.method = "POST")
    (hk : jsTruthy w.env.stripeSecretKey = true)
    (hs : jsTruthy w.env.webhookSecret = true)
    (hb : w.stripeNet.bodyReadOk = true)
    (he : w.stripeNet.constructedEvent = some ev)
    (ht : ev.type = "invoice.paid")
    (hd : w.env.shopDomain = some dom) (hdom : dom ≠ "")
    (htok : jsTruthy w.env.shopToken = true) :
    webhookHandler w = handleInvoicePaid w ev := by
  unfold webhookHandler
  rw [hm, hk, hs, hb, he, hd]
  simp [ht, hdom, htok]

/-! ### Claim C4 — no order without signature verification -/

/-- C4: for every request whose signature verification fails
(`constructEvent` throws), the handler makes zero outbound commerce-backend
calls, and — whenever the request got as far as verification (POST, secrets
configured, body read) — the response is the invalid-signature reject.  Since
the trace is empty, no order draft payload is ever sent without a verified
event. -/
theorem c4_no_order_without_verification (w : HandlerWorld)
    (h : w.stripeNet.constructedEvent = none) :
    (webhookHandler w).shopifyCalls = [] ∧
    (w.method = "POST" → jsTruthy w.env.stripeSecretKey = true →
      jsTruthy w.env.webhookSecret = true → w.stripeNet.bodyReadOk = true →
      webhookHandler w = { response := .invalidSignature }) := by
  constructor
  · unfold webhookHandler
    rw [h]
    split
    · rfl
    · split
      · rfl
      · split
        · rfl
        · rfl
  · intro hm hk hs hb
    unfold webhookHandler
    rw [h, hm, hk, hs, hb]
    simp

/-- C4 witness: a concrete fully configured world whose signature check
fails: reject response, empty commerce trace. -/
theorem c4_witness :
    (webhookHandler worldBadSigW).shopifyCalls = [] ∧
    webhookHandler worldBadSigW = { response := .invalidSignature } := by
  have h := c4_no_order_without_verification worldBadSigW rfl
  exact ⟨h.1, h.2 rfl (by decide) (by decide) rfl⟩

/-! ### Claim C8 — unrecognized event types are acknowledged with no calls -/

/-- C8: every verified event whose type is outside the recognized set
{checkout.session.completed, invoice.paid, customer.subscription.deleted,
customer.subscription.updated} is answered with the success acknowledgement
`{received:true}` and zero outbound commerce-backend calls. -/
theorem c8_unrecognized_type_ack (w : HandlerWorld) (ev : StripeEvent)
    (hm : w.method = "POST") (hk : jsTruthy w.env.stripeSecretKey = true)
    (hs : jsTruthy w.env.webhookSecret = true)
    (hb : w.stripeNet.bodyReadOk = true)
    (he : w.stripeNet.constructedEvent = some ev)
    (ht : ev.type ∉ ["checkout.session.completed", "invoice.paid",
      "customer.subscription.deleted", "customer.subscription.updated"]) :
    webhookHandler w = { response := .received } := by
  have hlist := ht
  simp only [List.mem_cons, List.mem_singleton, not_or] at hlist
  obtain ⟨h1, h2, h3, h4⟩ := hlist
  unfold webhookHandler
  rw [hm, hk, hs, hb, he]
  simp [h1, h2, h3, h4]

/-- C8 witness: a verified `payment_intent.succeeded` event is acknowledged
with no commerce calls. -/
theorem c8_witness : webhookHandler worldOtherTypeW = { response := .received } :=
  c8_unrecognized_type_ack worldOtherTypeW
    { type := "payment_intent.succeeded" } rfl (by decide) (by decide) rfl rfl
    (by decide)

/-! ### Claim C9 — missing `amount_total` is recorded as a trial -/

/-- C9: for every reachable `checkout.session.completed` event whose
retrieved session has no `amount_total`, the handler treats the amount as
zero — `amountFormatted` is `"0.00"` — and the order payload sent to the
commerce backend carries exactly the trial-titled free-text line item at
price `"0.00"`. -/
theorem c9_missing_amount_trial (w : HandlerWorld) (ev : StripeEvent)
    (s : CheckoutSession) (dom : String) (hm : w.method = "POST")
    (hk : jsTruthy w.env.stripeSecretKey = true)
    (hs : jsTruthy w.env.webhookSecret = true)
    (hb : w.stripeNet.bodyReadOk = true)
    (he : w.stripeNet.constructedEvent = some ev)
    (ht : ev.type = "checkout.session.completed")
    (hd : w.env.shopDomain = some dom) (hdom : dom ≠ "")
    (htok : jsTruthy w.env.shopToken = true)
    (hsr : w.stripeNet.sessionRetrieve = some s)
    (ha : s.amount_total = none) :
    jsAmountFormatted 0 = "0.00" ∧
    ((firstDraftPayload (webhookHandler w).shopifyCalls).map
      (fun p => p.line_items)) =
      some [{ variant_id := none,
              title := some (if sessionPlan (s.metadata.bind (fun m => m.plan)) =
                  "yearly" then titleYearlyTrial else titleMonthlyTrial),
              price := "0.00", quantity := 1, taxable := none }] := by
  have h0 : jsAmountFormatted 0 = "0.00" := by decide
  refine ⟨h0, ?_⟩
  rw [webhookHandler_session_path w ev dom hm hk hs hb he ht hd hdom htok]
  simp only [handleCheckoutSession, hsr, ha, h0, buildLineItems_trial,
    apply_ite HandlerOut.shopifyCalls]
  rw [firstDraftPayload_sessionBranches]
  rfl

/-- C9 witness: the theorem applied at a concrete session lacking
`amount_total` (default plan `yearly`): the sent line item is the yearly
trial title at `"0.00"`. -/
theorem c9_witness :
    ((firstDraftPayload (webhookHandler worldNoAmountW).shopifyCalls).map
      (fun p => p.line_items)) =
      some [{ variant_id := none, title := some titleYearlyTrial,
              price := "0.00", quantity := 1, taxable := none }] := by
  have h := c9_missing_amount_trial worldNoAmountW
    { type := "checkout.session.completed", objectId := "cs_3" }
    { amount_total := none } "example.myshopify.com" rfl (by decide)
    (by decide) rfl rfl rfl rfl (by decide) (by decide) rfl rfl
  exact h.2.trans (by decide)

/-! ### Claim C1 — `invoice.paid` guard conditions -/

/-- C1 counterexample: the claim "an order is sent iff the invoice has a
subscription, a positive paid amount, and a billing reason in
{subscription_cycle, subscription_create}; in every other case — including an
absent or null billing reason — the event is ignored and no order is created"
fails on the code: the guard only blocks a PRESENT out-of-set billing reason,
so an invoice with `billing_reason: null` (subscription present, amount 100)
has an order payload sent and is acknowledged, not ignored. -/
theorem c1_counterexample :
    invNullReasonW.billing_reason = none ∧
    sendsOrderPayload (webhookHandler worldNullReasonW) = true ∧
    (webhookHandler worldNullReasonW).response = .received := by
  refine ⟨rfl, ?_, ?_⟩ <;> decide

/-- C1 (amended): for every reachable `invoice.paid` event whose resolved
subscription carries no `product_id`/`variant_id` metadata (otherwise lines
670-672 crash on a `const` reassignment before any Shopify call), the handler
sends an order payload to the commerce backend iff the invoice is associated
with a subscription, has a positive paid amount, and its billing reason is
absent, empty, or one of {subscription_cycle, subscription_create}; whenever
one of the guards fails the event is acknowledged with `{received:true}` and
no commerce call is made. -/
theorem c1_invoice_guard_iff (w : HandlerWorld) (ev : StripeEvent)
    (inv : StripeInvoice) (dom : String) (hm : w.method = "POST")
    (hk : jsTruthy w.env.stripeSecretKey = true)
    (hs : jsTruthy w.env.webhookSecret = true)
    (hb : w.stripeNet.bodyReadOk = true)
    (he : w.stripeNet.constructedEvent = some ev)
    (ht : ev.type = "invoice.paid")
    (hd : w.env.shopDomain = some dom) (hdom : dom ≠ "")
    (htok : jsTruthy w.env.shopToken = true)
    (hir : w.stripeNet.invoiceRetrieve = some inv)
    (hprod : coalesceEmpty ((resolvedSubscription w inv).metadata.bind
      (fun m => m.product_id)) = "")
    (hvar : coalesceEmpty ((resolvedSubscription w inv).metadata.bind
      (fun m => m.variant_id)) = "") :
    (sendsOrderPayload (webhookHandler w) = true ↔
      (invoiceSubTruthy inv = true ∧ invoiceAmountPositive inv = true ∧
        billingReasonBlocked inv.billing_reason = false)) ∧
    ((invoiceSubTruthy inv = false ∨ invoiceAmountPositive inv = false ∨
        billingReasonBlocked inv.billing_reason = true) →
      webhookHandler w = { response := .received }) := by
  rw [webhookHandler_invoice_path w ev dom hm hk hs hb he ht hd hdom htok]
  cases hsub : invoiceSubTruthy inv with
  | false =>
    have hrec : handleInvoicePaid w ev = { response := .received } := by
      simp only [handleInvoicePaid, hir, hsub]
      rfl
    rw [hrec]
    refine ⟨⟨fun habs => absurd habs (by decide), ?_⟩, fun _ => rfl⟩
    rintro ⟨h1', _, _⟩
    exact absurd h1' (by simp [hsub])
  | true =>
    cases hamt : invoiceAmountPositive inv with
    | false =>
      have hrec : handleInvoicePaid w ev = { response := .received } := by
        simp only [handleInvoicePaid, hir, hsub, hamt]
        rfl
      rw [hrec]
      refine ⟨⟨fun habs => absurd habs (by decide), ?_⟩, fun _ => rfl⟩
      rintro ⟨_, h2', _⟩
      exact absurd h2' (by simp [hamt])
    | true =>
      cases hbr : billingReasonBlocked inv.billing_reason with
      | true =>
        have hrec : handleInvoicePaid w ev = { response := .received } := by
          simp only [handleInvoicePaid, hir, hsub, hamt, hbr]
          rfl
        rw [hrec]
        refine ⟨⟨fun habs => absurd habs (by decide), ?_⟩, fun _ => rfl⟩
        rintro ⟨_, _, h3'⟩
        exact absurd h3' (by simp [hbr])
      | false =>
        have hsend : sendsOrderPayload (handleInvoicePaid w ev) = true := by
          simp only [handleInvoicePaid, hir]
          rw [hsub, hamt, hbr]
          simp only [Bool.not_true, Bool.not_false, Bool.false_eq_true,
            if_false, if_true, hprod, hvar, ne_eq, not_true_eq_false,
            or_self, ite_false, sendsOrderPayload, decide_False,
            Bool.or_self, apply_ite HandlerOut.shopifyCalls]
          rw [firstDraftPayload_invoiceBranches]
          rfl
        refine ⟨⟨fun _ => ⟨rfl, rfl, rfl⟩, fun _ => hsend⟩, ?_⟩
        rintro (h' | h' | h') <;> simp_all

/-- C1 witness: the amended theorem applied at a concrete invoice passing
every guard (`billing_reason: "subscription_cycle"`, amount 9999, expanded
subscription without product metadata): an order payload is sent. -/
theorem c1_guard_witness :
    sendsOrderPayload (webhookHandler worldInvoiceOkW) = true := by
  have h := c1_invoice_guard_iff worldInvoiceOkW
    { type := "invoice.paid", objectId := "in_2" }
    { subscription := some (.expanded { id := "sub_2" }),
      amount_paid := some 9999,
      billing_reason := some "subscription_cycle" }
    "example.myshopify.com" rfl (by decide) (by decide) rfl rfl rfl rfl
    (by decide) (by decide) rfl (by decide) (by decide)
  exact h.1.mpr ⟨by decide, by decide, by decide⟩

end StripeShopify
